import Mathlib

/-
Verification of the Deck Planning & Narrative Synthesis Engine of
`ppt_generator.py` (function `generate_eda_report` and its helpers).

The Python program is shallowly embedded:
 * pandas statistics (`mean`, `min`, `max`, `nunique`, `mode`, `corr`,
   `is_numeric_dtype`, `dtype`) are modelled as fields of `Series` /
   `DataFrame`, since pandas is an external library whose results the
   core merely reads;
 * the LLaMA text generator (`generate_with_llama`) and Python's
   `random.randint` are modelled as oracle parameters (`Oracle`);
   `RandValid` captures the contract of `random.randint`;
 * every string manipulation the source performs (`split('\n')`,
   `strip()`, `lower()`, `"x" in y`, `"\n".join`, f-string `.2f`
   formatting, `str(int)`) is given an executable model over `List Char`;
 * slide rendering (python-pptx, matplotlib, LibreOffice conversion) is
   out of scope; a slide is modelled by its title and logical content.
-/

namespace PPT

/-- Fuel-driven digit expansion; the fuel `n + 1` used below always
suffices since a number has at most `n + 1` decimal digits. -/
def natCharsAux : Nat → Nat → List Char
  | 0, _ => []
  | fuel + 1, n =>
    if n < 10 then [Nat.digitChar n]
    else natCharsAux fuel (n / 10) ++ [Nat.digitChar (n % 10)]

/-- Decimal digit characters of a natural number, modelling Python `str`
on a nonnegative integer. -/
def natChars (n : Nat) : List Char := natCharsAux (n + 1) n

/-- Decimal string of a natural number. -/
def natStr (n : Nat) : String := String.mk (natChars n)

/-- Python `str.strip()`: drop whitespace from both ends. -/
def trimChars (cs : List Char) : List Char :=
  ((cs.dropWhile Char.isWhitespace).reverse.dropWhile Char.isWhitespace).reverse

/-- Python `text.split('\n')`: split a character list at newline
characters, keeping empty pieces. -/
def splitLines (cs : List Char) : List (List Char) :=
  cs.splitOn '\n'

/-- Python `"\n".join(lines)`. -/
def joinLines (l : List String) : String :=
  String.mk (List.intercalate ['\n'] (l.map String.data))

/-- Python `str.lower()` (ASCII view, which is all the source compares). -/
def strToLower (s : String) : String := String.mk (s.data.map Char.toLower)

/-- Python `needle in hay` on strings: substring test. -/
def strContainsSub (hay needle : String) : Bool :=
  (List.range (hay.data.length + 1)).any (fun i => needle.data.isPrefixOf (hay.data.drop i))

/-- The stripped non-empty lines of a text, as computed by the first line
of `split_into_bullets`. -/
def pyLines (text : String) : List String :=
  ((splitLines text.data).map (fun l => String.mk (trimChars l))).filter (fun l => l ≠ "")

/-- The fixed canonical failure bullet list returned by
`split_into_bullets` when fewer than `min_points` usable lines exist. -/
def canonical_failure : List String :=
  [ "Insufficient data in CSV.",
    "Analysis cannot be completed.",
    "Please check CSV content.",
    "No insights can be derived.",
    "This is an error message." ]

/-- Contract of Python `random.randint lo hi`: a result in `[lo, hi]`
whenever the range is nonempty. -/
def RandValid (r : Nat → Nat → Nat) : Prop :=
  ∀ lo hi, lo ≤ hi → lo ≤ r lo hi ∧ r lo hi ≤ hi

/-- `split_into_bullets(text, min_points, max_points)` from the source,
with `random.randint` passed in as the oracle `randint`. -/
def split_into_bullets (randint : Nat → Nat → Nat) (text : String)
    (min_points max_points : Nat) : List String :=
  let lines := pyLines text
  if lines = [] ∨ lines.length < min_points then canonical_failure
  else lines.take (randint min_points (Nat.min max_points lines.length))

/-- The chart kind actually used for a column pair, from the branch on
`is_numeric_col` / `is_numeric_other` in `generate_eda_report`
(variable `actual_plot_type`). -/
def actualPlotType (is_numeric_col is_numeric_other : Bool) (plot_type : String) : String :=
  if is_numeric_col && is_numeric_other then plot_type
  else if is_numeric_other then "Bar"
  else if is_numeric_col then "Bar"
  else "Stacked Bar"

/-- Two decimal digit characters of `f < 100`. -/
def fracChars (f : Nat) : List Char :=
  [Nat.digitChar (f / 10), Nat.digitChar (f % 10)]

/-- Two-decimal fixed-point rendering of a rational: the model of
Python's f-string format spec `.2f` applied to the float statistics.
The hundredths count is `⌊|x| * 100 + 1/2⌋`, computed on the
numerator/denominator as the integer quotient `(200|num| + den) / (2 den)`. -/
def fmt2 (x : ℚ) : String :=
  let cents : Nat := (200 * x.num.natAbs + x.den) / (2 * x.den)
  String.mk ((if x.num < 0 then ['-'] else [])
    ++ natChars (cents / 100) ++ '.' :: fracChars (cents % 100))

/-- Checks that a token is a number written with exactly two digits after
the decimal point (an optional leading minus sign, at least one integer
digit, a dot, exactly two fractional digits). -/
def isTwoDecChars (cs : List Char) : Bool :=
  decide (1 ≤ (cs.takeWhile Char.isDigit).length)
    && decide ((cs.dropWhile Char.isDigit).length = 3)
    && decide ((cs.dropWhile Char.isDigit).headD ' ' = '.')
    && (cs.dropWhile Char.isDigit).tail.all Char.isDigit

def isTwoDec (t : String) : Bool :=
  isTwoDecChars (if t.data.headD ' ' = '-' then t.data.tail else t.data)

/-- Fuel-driven scanner behind `numTokens`; every step consumes at least
one character, so fuel `length + 1` suffices. -/
def numTokensAux : Nat → List Char → List String
  | 0, _ => []
  | _ + 1, [] => []
  | fuel + 1, c :: rest =>
    if c.isDigit then
      match rest.dropWhile Char.isDigit with
      | '.' :: rest2 =>
        if (rest2.headD ' ').isDigit then
          String.mk (c :: rest.takeWhile Char.isDigit ++ '.' :: rest2.takeWhile Char.isDigit)
            :: numTokensAux fuel (rest2.dropWhile Char.isDigit)
        else String.mk (c :: rest.takeWhile Char.isDigit)
            :: numTokensAux fuel (rest.dropWhile Char.isDigit)
      | _ => String.mk (c :: rest.takeWhile Char.isDigit)
            :: numTokensAux fuel (rest.dropWhile Char.isDigit)
    else numTokensAux fuel rest

/-- Maximal numeric figures occurring in a character list: each token is
a digit run optionally followed by a dot and a further digit run. -/
def numTokens (cs : List Char) : List String := numTokensAux (cs.length + 1) cs

/-- A pandas `Series` as seen by the core: its dtype name, numericness
(`pd.api.types.is_numeric_dtype`), and the statistics the core reads.
pandas itself is an external collaborator; the fields are its answers. -/
structure Series where
  dtypeName : String
  isNumeric : Bool
  mean : ℚ
  minVal : ℚ
  maxVal : ℚ
  nunique : Nat
  modeVal : String
deriving DecidableEq

/-- A pandas `DataFrame` as seen by the core: row count, named columns
in order, and the pairwise Pearson correlation oracle
(`df[[a, b]].corr().iloc[0, 1]`). -/
structure DataFrame where
  nRows : Nat
  cols : List (String × Series)
  corrOf : String → String → ℚ

/-- Column names in dataset order (`df.columns`). -/
def DataFrame.columns (df : DataFrame) : List String := df.cols.map Prod.fst

/-- Column access `df[c]`: `none` models an uncaught `KeyError`. -/
def DataFrame.find? (df : DataFrame) (c : String) : Option Series :=
  (df.cols.find? (fun p => p.1 == c)).map Prod.snd

/-- The non-focus columns, `[c for c in df.columns if c != col]`. -/
def otherCols (df : DataFrame) (col : String) : List String :=
  df.columns.filter (fun c => c != col)

/-- Oracle for the external collaborators: the LLaMA responses
(`generate_with_llama` on each of the prompts the source builds) and the
`random.randint` draw used at each `split_into_bullets` call site. -/
structure Oracle where
  coverText : String
  introText : String
  introDraw : Nat → Nat → Nat
  detailText : Nat → String
  detailDraw : Nat → Nat → Nat → Nat
  indexDraw : Nat → Nat → Nat
  summaryText : String
  summaryDraw : Nat → Nat → Nat
  extraText : Nat → String
  extraDraw : Nat → Nat → Nat → Nat
  conclusionText : String
  conclusionDraw : Nat → Nat → Nat

/-- The literal default prompt, lower case. -/
def defaultPromptLower : String := "default analysis of one column vs others"

/-- The summary-directive test on line `if user_prompt.lower() != ... and
"summary" in user_prompt.lower()` used while building the title list. -/
def directiveFires (user_prompt : String) : Bool :=
  decide (strToLower user_prompt ≠ defaultPromptLower) &&
    strContainsSub (strToLower user_prompt) "summary"

/-- The summary-directive test at the slide-adding site, which first
checks Python truthiness of `user_prompt`. -/
def directiveFires2 (user_prompt : String) : Bool :=
  decide (user_prompt ≠ "") && directiveFires user_prompt

/-- Whether `min_slides > 2 * num_cols`, the source's
`extra_slides_needed` flag gating the "Index of Slides" slide. -/
def extraSlidesNeeded (df : DataFrame) (min_slides : Nat) : Bool :=
  decide (2 * df.columns.length < min_slides)

/-- The six deterministic stat bullets (`content_points`) of a
"Comparison Insights" slide, translated from the source. -/
def contentPoints (df : DataFrame) (col other_col : String) (s t : Series) : List String :=
  let diversity : String := if 5 < t.nunique then "High" else "Low"
  [ "Rows analyzed: " ++ natStr df.nRows ++ ". Total entries in CSV.",
    if s.isNumeric && t.isNumeric then
      "Correlation: " ++ fmt2 (df.corrOf col other_col) ++ ". Shows " ++ col ++ " vs " ++ other_col ++ " link."
    else col ++ " type: " ++ s.dtypeName ++ ". Non-numeric data detected.",
    if t.isNumeric then other_col ++ " mean: " ++ fmt2 t.mean ++ ". Average from CSV data."
    else other_col ++ " unique: " ++ natStr t.nunique ++ ". Distinct values counted.",
    if t.isNumeric then other_col ++ " min: " ++ fmt2 t.minVal ++ ". Minimum value in CSV."
    else other_col ++ " top: " ++ t.modeVal ++ ". Most frequent in CSV.",
    if t.isNumeric then other_col ++ " max: " ++ fmt2 t.maxVal ++ ". Maximum value in CSV."
    else other_col ++ " diversity: " ++ diversity ++ ". Variation in data.",
    if s.isNumeric then col ++ " stat: " ++ fmt2 s.mean ++ ". Numeric average from CSV."
    else col ++ " top: " ++ s.modeVal ++ ". Top category in CSV." ]

/-- Logical content of a slide: a title-only slide, a chart slide (with
the chart kind handed to the plotting collaborator), or a bullet list. -/
inductive SlideContent where
  | titleOnly : SlideContent
  | chart : String → SlideContent
  | bullets : List String → SlideContent
deriving DecidableEq

/-- A slide as handed to the rendering collaborator. -/
structure Slide where
  title : String
  content : SlideContent
deriving DecidableEq

/-- Result of `generate_eda_report`: successful deck (with the final
`slide_titles` tracking list), the structured `(False, msg)` failure, or
an unhandled Python exception. -/
inductive RunOutcome where
  | ok : List Slide → List String → RunOutcome
  | fail : String → RunOutcome
  | exn : String → RunOutcome
deriving DecidableEq

/-- Cover title: first line of the LLaMA response to the title prompt
(`generate_with_llama(title_prompt).split('\n')[0]`). -/
def coverTitle (o : Oracle) : String :=
  ((splitLines o.coverText.data).map String.mk).headD ""

/-- The running `slide_titles` list as of the overview computation
(source lines 105-117): cover title, "Introduction to Analysis", the
three per-phase groups of comparison titles, the conditional
"Index of Slides" placeholder, the conditional "Summary of Findings",
then "Conclusion of Analysis". -/
def baseTitles (df : DataFrame) (col : String) (min_slides : Nat)
    (user_prompt : String) (o : Oracle) : List String :=
  [coverTitle o, "Introduction to Analysis"]
  ++ (otherCols df col).map (fun oc => "Comparison Plot: " ++ col ++ " vs " ++ oc)
  ++ (otherCols df col).map (fun oc => "Comparison Insights: " ++ col ++ " vs " ++ oc)
  ++ (otherCols df col).map (fun oc => "Detailed Insights: " ++ col ++ " vs " ++ oc)
  ++ (if extraSlidesNeeded df min_slides then ["Index of Slides"] else [])
  ++ (if directiveFires user_prompt then ["Summary of Findings"] else [])
  ++ ["Conclusion of Analysis"]

/-- Numbered enumeration starting at index `i`. -/
def numberFrom (i : Nat) : List String → List String
  | [] => []
  | t :: rest => (natStr (i + 1) ++ ". " ++ t) :: numberFrom (i + 1) rest

/-- Numbered enumeration `f"{i + 1}. {title}"` of a title list. -/
def numberTitles (l : List String) : List String :=
  numberFrom 0 l

/-- `overview_content`: the numbered slice `slide_titles[2:-1]`. -/
def overviewContent (titles : List String) : List String :=
  numberTitles ((titles.drop 2).dropLast)

/-- Fuel-driven chunking; each step drops at least one element, so fuel
`length + 1` suffices. -/
def chunksOfAux (n : Nat) : Nat → List α → List (List α)
  | 0, _ => []
  | fuel + 1, l =>
    if l.isEmpty || n == 0 then [] else l.take n :: chunksOfAux n fuel (l.drop n)

/-- Chunks of at most `n` elements, modelling the stride-`n` range loop
that paginates the overview. -/
def chunksOf (n : Nat) (l : List α) : List (List α) :=
  chunksOfAux n (l.length + 1) l

/-- The overview slides: the paginated chunks, the first slide titled
"Overview of Upcoming Slides" and the rest "... Continued". -/
def overviewSlidesAux (first : Bool) : List (List String) → List Slide
  | [] => []
  | c :: rest =>
    ⟨if first then "Overview of Upcoming Slides" else "Overview of Upcoming Slides Continued",
      SlideContent.bullets c⟩ :: overviewSlidesAux false rest

/-- Overview slide group for a given `overview_content`. -/
def overviewSlides (ov : List String) : List Slide :=
  overviewSlidesAux true (chunksOf 6 ov)

/-- The per-column comparison loop: for each non-focus column, a chart
slide, the deterministic insights slide and a generated detail slide,
in that interleaved order.  `df[col]` and `df[other_col]` accesses that
miss model the uncaught `KeyError`. -/
def compSlides (df : DataFrame) (col plot_type : String) (o : Oracle) :
    List String → Nat → Except String (List Slide)
  | [], _ => .ok []
  | oc :: rest, idx =>
    match df.find? col with
    | none => .error ("KeyError: " ++ col)
    | some s =>
      match df.find? oc with
      | none => .error ("KeyError: " ++ oc)
      | some t =>
        match compSlides df col plot_type o rest (idx + 1) with
        | .error e => .error e
        | .ok tail =>
          .ok (⟨"Comparison Plot: " ++ col ++ " vs " ++ oc,
                 SlideContent.chart (actualPlotType s.isNumeric t.isNumeric plot_type)⟩
            :: ⟨"Comparison Insights: " ++ col ++ " vs " ++ oc,
                 SlideContent.bullets (contentPoints df col oc s t)⟩
            :: ⟨"Detailed Insights: " ++ col ++ " vs " ++ oc,
                 SlideContent.bullets (split_into_bullets (o.detailDraw idx) (o.detailText idx) 5 6)⟩
            :: tail)

/-- `slide_titles` as of the minimum-slide check (after the second
"Summary of Findings" append at the slide-adding site). -/
def preTitles (df : DataFrame) (col : String) (min_slides : Nat)
    (user_prompt : String) (o : Oracle) : List String :=
  baseTitles df col min_slides user_prompt o
    ++ (if directiveFires2 user_prompt then ["Summary of Findings"] else [])

/-- Number of padding slides: `min_slides - (len(slide_titles) + 1)`,
zero when the count already meets the minimum. -/
def padCount (df : DataFrame) (col : String) (min_slides : Nat)
    (user_prompt : String) (o : Oracle) : Nat :=
  min_slides - ((preTitles df col min_slides user_prompt o).length + 1)

/-- Title of the `i`-th padding slide, `f"Additional Analysis {i + 1}"`. -/
def padTitle (i : Nat) : String := "Additional Analysis " ++ natStr (i + 1)

/-- The final `slide_titles` list after padding. -/
def finalTitles (df : DataFrame) (col : String) (min_slides : Nat)
    (user_prompt : String) (o : Oracle) : List String :=
  preTitles df col min_slides user_prompt o
    ++ (List.range (padCount df col min_slides user_prompt o)).map padTitle

/-- The deck planning and content resolution of `generate_eda_report`,
producing the ordered slide sequence handed to the renderer and the
final `slide_titles` tracking list.  The PPTX/ODP serialization step is
external and not modelled. -/
def generate_eda_report (df : DataFrame) (col plot_type : String)
    (min_slides : Nat) (user_prompt : String) (o : Oracle) : RunOutcome :=
  if df.nRows = 0 then .fail "CSV file is empty."
  else
    match compSlides df col plot_type o (otherCols df col) 0 with
    | .error e => .exn e
    | .ok comps =>
      let base := baseTitles df col min_slides user_prompt o
      let ov := overviewContent base
      .ok
        ([⟨coverTitle o, SlideContent.titleOnly⟩]
          ++ overviewSlides ov
          ++ [⟨"Introduction to Analysis",
                SlideContent.bullets (split_into_bullets o.introDraw o.introText 5 6)⟩]
          ++ comps
          ++ (if extraSlidesNeeded df min_slides then
                [⟨"Index of Slides",
                   SlideContent.bullets (split_into_bullets o.indexDraw (joinLines ov) 5 6)⟩]
              else [])
          ++ (if directiveFires2 user_prompt then
                [⟨"Summary of Findings",
                   SlideContent.bullets (split_into_bullets o.summaryDraw o.summaryText 5 6)⟩]
              else [])
          ++ (List.range (padCount df col min_slides user_prompt o)).map
               (fun i => ⟨padTitle i,
                  SlideContent.bullets (split_into_bullets (o.extraDraw i) (o.extraText i) 5 6)⟩)
          ++ [⟨"Conclusion of Analysis",
                SlideContent.bullets (split_into_bullets o.conclusionDraw o.conclusionText 5 6)⟩,
              ⟨"Thank You", SlideContent.titleOnly⟩])
        (finalTitles df col min_slides user_prompt o)

/-- The slide list of a successful run, empty otherwise. -/
def deckOf : RunOutcome → List Slide
  | .ok d _ => d
  | _ => []

/-- Bullet list of a slide, empty for title-only and chart slides. -/
def bulletsOf (sl : Slide) : List String :=
  match sl.content with
  | SlideContent.bullets b => b
  | _ => []

/-- A string suitable as a column name for round-tripping through the
newline-join and re-split that the index slide performs: nonempty, free
of newline characters, and not ending in whitespace. -/
def cleanName (s : String) : Bool :=
  decide (s ≠ "") && s.data.all (fun ch => ch != '\n')
    && !(s.data.getLastD ' ').isWhitespace

/- ------------------------------------------------------------------
Concrete fixtures used by witnesses and counterexamples
------------------------------------------------------------------ -/

/-- A numeric column fixture (dtype float64, mean 10, min 0, max 20,
7 distinct values). -/
def wNum : Series := ⟨"float64", true, 10, 0, 20, 7, "x"⟩

/-- A categorical column fixture (dtype object, 7 distinct values,
mode "red"). -/
def wCat : Series := ⟨"object", false, 0, 0, 0, 7, "red"⟩

/-- A deterministic oracle fixture: cover text "T", every generated text
empty, every random draw the low end of its range. -/
def wOracle : Oracle :=
  ⟨"T", "", fun lo _ => lo, fun _ => "", fun _ lo _ => lo, fun lo _ => lo,
   "", fun lo _ => lo, fun _ => "", fun _ lo _ => lo, "", fun lo _ => lo⟩

/-- A 150-row frame with numeric columns A and B, correlation 17/20. -/
def wDfAB : DataFrame := ⟨150, [("A", wNum), ("B", wNum)], fun _ _ => mkRat 17 20⟩

/-- A 150-row frame with numeric columns A, B and categorical column C. -/
def wDfABC : DataFrame :=
  ⟨150, [("A", wNum), ("B", wNum), ("C", wCat)], fun _ _ => mkRat 17 20⟩

/-- The literal default prompt as the UI presents it. -/
def wDefaultPrompt : String := "Default analysis of one column vs others"

/- ------------------------------------------------------------------
String-level helper lemmas
------------------------------------------------------------------ -/

theorem strMk_data (s : String) : String.mk s.data = s := rfl

theorem head?_append_left {a b : List Char} {c : Char} (h : a.head? = some c) :
    (a ++ b).head? = some c := by
  cases a with
  | nil => simp at h
  | cons x xs => simpa using h

/-- Two strings differ when the first, a literal prefix followed by
anything, starts with a different character than the second. -/
theorem str_head_ne {p q : String} {c d : Char} (hp : p.data.head? = some c)
    (hq : q.data.head? = some d) (hne : c ≠ d) (x : String) : p ++ x ≠ q := by
  intro h
  have hdata : p.data ++ x.data = q.data := by
    have := congrArg String.data h
    simpa using this
  have h1 : (p.data ++ x.data).head? = some c := head?_append_left hp
  rw [hdata, hq] at h1
  exact hne (Option.some.inj h1).symm

theorem digitChar_isDigit {m : Nat} (h : m < 10) :
    (Nat.digitChar m).isDigit = true := by
  interval_cases m <;> decide

theorem not_whitespace_of_isDigit {c : Char} (h : c.isDigit = true) :
    c.isWhitespace = false := by
  simp only [Char.isWhitespace, Bool.or_eq_false_iff, decide_eq_false_iff_not]
  refine ⟨⟨⟨?_, ?_⟩, ?_⟩, ?_⟩ <;> rintro rfl <;> exact absurd h (by decide)

theorem natChars_ne_nil (n : Nat) : natChars n ≠ [] := by
  rw [natChars, natCharsAux]
  split
  · simp
  · simp

theorem natCharsAux_digits (fuel : Nat) :
    ∀ n, ∀ c ∈ natCharsAux fuel n, c.isDigit = true := by
  induction fuel with
  | zero =>
    intro n c hc
    simp [natCharsAux] at hc
  | succ fuel ih =>
    intro n c hc
    rw [natCharsAux] at hc
    split at hc
    · rw [List.mem_singleton] at hc
      subst hc
      rename_i hlt
      exact digitChar_isDigit hlt
    · rcases List.mem_append.mp hc with h1 | h2
      · exact ih (n / 10) c h1
      · rw [List.mem_singleton] at h2
        subst h2
        exact digitChar_isDigit (Nat.mod_lt _ (by omega))

theorem natChars_digits (n : Nat) : ∀ c ∈ natChars n, c.isDigit = true :=
  natCharsAux_digits (n + 1) n

theorem natStr_head_digit (n : Nat) :
    ∃ c, (natStr n).data.head? = some c ∧ c.isDigit = true := by
  rcases h : natChars n with _ | ⟨c, cs⟩
  · exact absurd h (natChars_ne_nil n)
  · refine ⟨c, ?_, ?_⟩
    · simp [natStr, h]
    · exact natChars_digits n c (by rw [h]; exact List.mem_cons_self _ _)

/- ------------------------------------------------------------------
Two-decimal formatting: fmt2 always produces a two-decimal figure
------------------------------------------------------------------ -/

theorem takeWhile_all_append {p : α → Bool} {l t : List α} {c : α}
    (hl : ∀ a ∈ l, p a = true) (hc : p c = false) :
    (l ++ c :: t).takeWhile p = l ∧ (l ++ c :: t).dropWhile p = c :: t := by
  induction l with
  | nil => simp [List.takeWhile_cons, List.dropWhile_cons, hc]
  | cons x xs ih =>
    have hx := hl x (List.mem_cons_self _ _)
    have ihx := ih (fun a ha => hl a (List.mem_cons_of_mem _ ha))
    simp [List.takeWhile_cons, List.dropWhile_cons, hx, ihx.1, ihx.2]

theorem fracChars_digits (f : Nat) (hf : f < 100) :
    ∀ c ∈ fracChars f, c.isDigit = true := by
  intro c hc
  simp only [fracChars, List.mem_cons, List.not_mem_nil, or_false] at hc
  rcases hc with rfl | rfl
  · exact digitChar_isDigit (by omega)
  · exact digitChar_isDigit (Nat.mod_lt _ (by omega))

theorem isTwoDec_digits_dot (w f : Nat) (pre : List Char)
    (hpre : pre = [] ∨ pre = ['-']) (hf : f < 100) :
    isTwoDec (String.mk (pre ++ natChars w ++ '.' :: fracChars f)) = true := by
  have hdig := natChars_digits w
  have hsplit := @takeWhile_all_append Char Char.isDigit (natChars w) (fracChars f) '.'
    hdig (by decide)
  have hbody : ((natChars w ++ '.' :: fracChars f).takeWhile Char.isDigit = natChars w)
      ∧ ((natChars w ++ '.' :: fracChars f).dropWhile Char.isDigit = '.' :: fracChars f) := hsplit
  have hne := natChars_ne_nil w
  have hcs : (if (pre ++ natChars w ++ '.' :: fracChars f).headD ' ' = '-'
      then (pre ++ natChars w ++ '.' :: fracChars f).tail
      else pre ++ natChars w ++ '.' :: fracChars f) = natChars w ++ '.' :: fracChars f := by
    rcases hpre with rfl | rfl
    · simp only [List.nil_append]
      rcases h : natChars w with _ | ⟨c, cs⟩
      · exact absurd h hne
      · have hcdig : c.isDigit = true := hdig c (by rw [h]; exact List.mem_cons_self _ _)
        have : c ≠ '-' := by
          intro hcc
          rw [hcc] at hcdig
          exact absurd hcdig (by decide)
        simp [this]
    · simp
  unfold isTwoDec
  rw [show (String.mk (pre ++ natChars w ++ '.' :: fracChars f)).data
      = pre ++ natChars w ++ '.' :: fracChars f from rfl]
  rw [List.append_assoc] at hcs ⊢
  rw [hcs]
  unfold isTwoDecChars
  rw [hbody.1, hbody.2]
  have hlen : 1 ≤ (natChars w).length := by
    rcases h : natChars w with _ | ⟨c, cs⟩
    · exact absurd h hne
    · simp
  simp only [fracChars, List.length_cons, List.length_nil, List.headD_cons, List.tail_cons,
    List.all_cons, List.all_nil, Bool.and_true, Bool.and_eq_true, decide_eq_true_eq]
  refine ⟨⟨⟨by simpa using hlen, by simp⟩, by simp⟩, ?_⟩
  have h1 := @digitChar_isDigit (f / 10) (by omega)
  have h2 := @digitChar_isDigit (f % 10) (Nat.mod_lt _ (by omega))
  simp [h1, h2]

/-- The two-decimal formatter always emits exactly two digits after the
decimal point. -/
theorem isTwoDec_fmt2 (x : ℚ) : isTwoDec (fmt2 x) = true := by
  unfold fmt2
  split
  · exact isTwoDec_digits_dot _ _ ['-'] (Or.inr rfl) (Nat.mod_lt _ (by omega))
  · exact isTwoDec_digits_dot _ _ [] (Or.inl rfl) (Nat.mod_lt _ (by omega))

/- ------------------------------------------------------------------
Claim C2: chart-kind classification
------------------------------------------------------------------ -/

/-- Claim C2: the chart kind actually used is a pure function of the two
columns' numericness and the requested kind, following the four rules:
both numeric uses the requested kind; focus categorical with numeric
other forces Bar; numeric focus with categorical other forces Bar; both
categorical forces the stacked-bar kind; and the requested preference
influences the outcome only when both columns are numeric. -/
theorem claim_C2 (req : String)
    (hreq : req = "Scatter" ∨ req = "Hexbin" ∨ req = "Box" ∨ req = "Bar") :
    actualPlotType true true req = req
    ∧ actualPlotType false true req = "Bar"
    ∧ actualPlotType true false req = "Bar"
    ∧ actualPlotType false false req = "Stacked Bar"
    ∧ (∀ (a b : Bool) (req' : String), (a && b) = false →
        actualPlotType a b req = actualPlotType a b req') := by
  refine ⟨rfl, rfl, rfl, rfl, ?_⟩
  intro a b req' hab
  cases a <;> cases b <;> first
    | rfl
    | exact absurd hab (by decide)

/-- Witness for C2 at the requested kind Scatter. -/
theorem claim_C2_witness :
    actualPlotType true true "Scatter" = "Scatter"
    ∧ actualPlotType false true "Scatter" = "Bar"
    ∧ actualPlotType true false "Scatter" = "Bar"
    ∧ actualPlotType false false "Scatter" = "Stacked Bar"
    ∧ (∀ (a b : Bool) (req' : String), (a && b) = false →
        actualPlotType a b "Scatter" = actualPlotType a b req') :=
  claim_C2 "Scatter" (Or.inl rfl)

/- ------------------------------------------------------------------
Claims C3 and C4: the narrative sanitizer
------------------------------------------------------------------ -/

/-- Shared helper: the sanitizer's failure branch. -/
theorem split_low (r : Nat → Nat → Nat) (text : String)
    (h : (pyLines text).length < 5) :
    split_into_bullets r text 5 6 = canonical_failure := by
  simp [split_into_bullets, h]

/-- Shared helper: the sanitizer's success branch. -/
theorem split_high (r : Nat → Nat → Nat) (text : String) (hr : RandValid r)
    (h5 : 5 ≤ (pyLines text).length) :
    5 ≤ (split_into_bullets r text 5 6).length
    ∧ (split_into_bullets r text 5 6).length ≤ Nat.min 6 (pyLines text).length
    ∧ split_into_bullets r text 5 6
        = (pyLines text).take (split_into_bullets r text 5 6).length
    ∧ (split_into_bullets r text 5 6).length = r 5 (Nat.min 6 (pyLines text).length) := by
  have hmin : 5 ≤ Nat.min 6 (pyLines text).length := le_min (by omega) h5
  obtain ⟨hlo, hhi⟩ := hr 5 _ hmin
  have hcond : ¬(pyLines text = [] ∨ (pyLines text).length < 5) := by
    rintro (he | hl)
    · rw [he] at h5
      simp at h5
    · omega
  have heq : split_into_bullets r text 5 6
      = (pyLines text).take (r 5 (Nat.min 6 (pyLines text).length)) := by
    simp only [split_into_bullets, if_neg hcond]
  have hlen : (split_into_bullets r text 5 6).length
      = r 5 (Nat.min 6 (pyLines text).length) := by
    rw [heq, List.length_take]
    exact Nat.min_eq_left (le_trans hhi (Nat.min_le_right _ _))
  refine ⟨?_, ?_, ?_, hlen⟩
  · rw [hlen]
    exact hlo
  · rw [hlen]
    exact hhi
  · rw [hlen]
    exact heq

/-- Claim C3: on input whose stripped non-empty line count is below the
minimum of 5, `split_into_bullets` discards the input and returns
exactly the fixed 5-entry canonical failure bullet list, verbatim and in
its fixed order, never a partial mix. -/
theorem claim_C3 (r : Nat → Nat → Nat) (text : String)
    (h : (pyLines text).length < 5) :
    split_into_bullets r text 5 6
      = [ "Insufficient data in CSV.",
          "Analysis cannot be completed.",
          "Please check CSV content.",
          "No insights can be derived.",
          "This is an error message." ] := by
  rw [split_low r text h]
  rfl

/-- Witness for C3 on a two-line input. -/
theorem claim_C3_witness :
    split_into_bullets (fun lo _ => lo) "a\nb" 5 6
      = [ "Insufficient data in CSV.",
          "Analysis cannot be completed.",
          "Please check CSV content.",
          "No insights can be derived.",
          "This is an error message." ] :=
  claim_C3 (fun lo _ => lo) "a\nb" (by decide)

/-- Claim C4: on input with at least 5 stripped non-empty lines, the
sanitizer returns a list whose length lies in the interval from 5 to
`min 6 availableLines`, equal to the `randint` draw over exactly that
range (the uniform distribution being the contract of the modelled
`random.randint`), and whose entries are exactly a prefix of the
stripped non-empty input lines in their original order. -/
theorem claim_C4 (r : Nat → Nat → Nat) (text : String) (hr : RandValid r)
    (h5 : 5 ≤ (pyLines text).length) :
    5 ≤ (split_into_bullets r text 5 6).length
    ∧ (split_into_bullets r text 5 6).length ≤ Nat.min 6 (pyLines text).length
    ∧ split_into_bullets r text 5 6
        = (pyLines text).take (split_into_bullets r text 5 6).length
    ∧ (split_into_bullets r text 5 6).length = r 5 (Nat.min 6 (pyLines text).length) :=
  split_high r text hr h5

/-- Witness for C4 on a seven-line input with the low-end random draw. -/
theorem claim_C4_witness :
    5 ≤ (split_into_bullets (fun lo _ => lo) "a\nb\nc\nd\ne\nf\ng" 5 6).length
    ∧ (split_into_bullets (fun lo _ => lo) "a\nb\nc\nd\ne\nf\ng" 5 6).length
        ≤ Nat.min 6 (pyLines "a\nb\nc\nd\ne\nf\ng").length
    ∧ split_into_bullets (fun lo _ => lo) "a\nb\nc\nd\ne\nf\ng" 5 6
        = (pyLines "a\nb\nc\nd\ne\nf\ng").take
            (split_into_bullets (fun lo _ => lo) "a\nb\nc\nd\ne\nf\ng" 5 6).length
    ∧ (split_into_bullets (fun lo _ => lo) "a\nb\nc\nd\ne\nf\ng" 5 6).length
        = (fun lo _ => lo : Nat → Nat → Nat) 5
            (Nat.min 6 (pyLines "a\nb\nc\nd\ne\nf\ng").length) :=
  claim_C4 (fun lo _ => lo) "a\nb\nc\nd\ne\nf\ng"
    (fun lo hi hle => ⟨Nat.le_refl lo, hle⟩) (by decide)

/- ------------------------------------------------------------------
Pagination lemmas: chunksOf and the overview slide group
------------------------------------------------------------------ -/

theorem chunksOfAux_join {α : Type} (n : Nat) (hn : n ≠ 0) :
    ∀ (fuel : Nat) (l : List α), l.length < fuel → (chunksOfAux n fuel l).flatten = l := by
  intro fuel
  induction fuel with
  | zero =>
    intro l hl
    exact absurd hl (by omega)
  | succ fuel ih =>
    intro l hl
    rw [chunksOfAux]
    by_cases hc : l.isEmpty || n == 0
    · rw [if_pos hc]
      rcases Bool.or_eq_true_iff.mp hc with h1 | h2
      · rw [List.isEmpty_iff.mp h1]
        rfl
      · have hz : n = 0 := by simpa using h2
        exact absurd hz hn
    · rw [if_neg hc]
      have hne : l ≠ [] := by
        intro hnil
        subst hnil
        simp at hc
      have hlen : (l.drop n).length < fuel := by
        rw [List.length_drop]
        have h1 : 1 ≤ l.length := by
          rcases l with _ | ⟨a, t⟩
          · exact absurd rfl hne
          · simp
        have hn1 : n ≠ 0 := hn
        omega
      rw [List.flatten_cons, ih (l.drop n) hlen, List.take_append_drop]

/-- Concatenating the chunks recovers the original list. -/
theorem chunksOf_join {α : Type} (n : Nat) (hn : n ≠ 0) (l : List α) :
    (chunksOf n l).flatten = l :=
  chunksOfAux_join n hn (l.length + 1) l (Nat.lt_succ_self _)

theorem chunksOfAux_le {α : Type} (n : Nat) :
    ∀ (fuel : Nat) (l : List α), ∀ c ∈ chunksOfAux n fuel l, c.length ≤ n := by
  intro fuel
  induction fuel with
  | zero =>
    intro l c hc
    simp [chunksOfAux] at hc
  | succ fuel ih =>
    intro l c hc
    rw [chunksOfAux] at hc
    by_cases hb : l.isEmpty || n == 0
    · rw [if_pos hb] at hc
      simp at hc
    · rw [if_neg hb] at hc
      rcases List.mem_cons.mp hc with rfl | htail
      · rw [List.length_take]
        exact Nat.min_le_left _ _
      · exact ih (l.drop n) c htail

/-- Every chunk has at most `n` elements. -/
theorem chunksOf_le {α : Type} (n : Nat) (l : List α) :
    ∀ c ∈ chunksOf n l, c.length ≤ n :=
  chunksOfAux_le n (l.length + 1) l

theorem chunksOf_ne_nil {α : Type} {n : Nat} {l : List α} (hl : l ≠ []) (hn : n ≠ 0) :
    chunksOf n l ≠ [] := by
  rw [chunksOf, chunksOfAux]
  have hb : (l.isEmpty || n == 0) = false := by
    rcases l with _ | ⟨a, t⟩
    · exact absurd rfl hl
    · simp [hn]
  rw [hb]
  simp

theorem overviewSlidesAux_length (f : Bool) (cs : List (List String)) :
    (overviewSlidesAux f cs).length = cs.length := by
  induction cs generalizing f with
  | nil => rfl
  | cons c rest ih => simp [overviewSlidesAux, ih]

theorem overviewSlidesAux_bullets (f : Bool) (cs : List (List String)) :
    (overviewSlidesAux f cs).map bulletsOf = cs := by
  induction cs generalizing f with
  | nil => rfl
  | cons c rest ih => simp [overviewSlidesAux, bulletsOf, ih]

theorem overviewSlidesAux_titles (f : Bool) (cs : List (List String)) :
    ∀ sl ∈ overviewSlidesAux f cs,
      sl.title = "Overview of Upcoming Slides"
      ∨ sl.title = "Overview of Upcoming Slides Continued" := by
  induction cs generalizing f with
  | nil => intro sl h; simp [overviewSlidesAux] at h
  | cons c rest ih =>
    intro sl h
    rcases List.mem_cons.mp h with rfl | htail
    · cases f
      · exact Or.inr rfl
      · exact Or.inl rfl
    · exact ih false sl htail

/-- The overview slide group paginates its content: joining the bullet
lists of the overview slides recovers the full numbered enumeration, and
every overview slide carries at most 6 entries. -/
theorem overviewSlides_pagination (ov : List String) :
    ((overviewSlides ov).map bulletsOf).flatten = ov
    ∧ ∀ sl ∈ overviewSlides ov, (bulletsOf sl).length ≤ 6 := by
  constructor
  · rw [overviewSlides, overviewSlidesAux_bullets]
    exact chunksOf_join 6 (by omega) ov
  · intro sl hsl
    have : bulletsOf sl ∈ (overviewSlides ov).map bulletsOf := List.mem_map_of_mem _ hsl
    rw [overviewSlides, overviewSlidesAux_bullets] at this
    exact chunksOf_le 6 ov _ this

theorem numberFrom_length (i : Nat) (l : List String) :
    (numberFrom i l).length = l.length := by
  induction l generalizing i with
  | nil => rfl
  | cons t rest ih => simp [numberFrom, ih]

theorem numberTitles_length (l : List String) : (numberTitles l).length = l.length :=
  numberFrom_length 0 l

theorem numberFrom_mem {i : Nat} {l : List String} {x : String}
    (h : x ∈ numberFrom i l) :
    ∃ j t, t ∈ l ∧ x = natStr (j + 1) ++ ". " ++ t := by
  induction l generalizing i with
  | nil => simp [numberFrom] at h
  | cons t rest ih =>
    rcases List.mem_cons.mp h with rfl | htail
    · exact ⟨i, t, List.mem_cons_self _ _, rfl⟩
    · obtain ⟨j, t', ht', hx⟩ := ih htail
      exact ⟨j, t', List.mem_cons_of_mem _ ht', hx⟩

theorem overviewContent_length (t : List String) :
    (overviewContent t).length = t.length - 3 := by
  rw [overviewContent, numberTitles_length, List.length_dropLast, List.length_drop]
  omega

/- ------------------------------------------------------------------
Column lookup and the comparison loop
------------------------------------------------------------------ -/

theorem find?_of_mem_columns {df : DataFrame} {c : String} (h : c ∈ df.columns) :
    ∃ t, df.find? c = some t := by
  rw [DataFrame.columns, List.mem_map] at h
  obtain ⟨p, hp, hpc⟩ := h
  have hsome : (df.cols.find? (fun q => q.1 == c)).isSome := by
    rw [List.find?_isSome]
    exact ⟨p, hp, by simp [hpc]⟩
  obtain ⟨q, hq⟩ := Option.isSome_iff_exists.mp hsome
  exact ⟨q.2, by rw [DataFrame.find?, hq]; rfl⟩

theorem find?_eq_none_of_not_mem {df : DataFrame} {c : String} (h : c ∉ df.columns) :
    df.find? c = none := by
  rw [DataFrame.find?, List.find?_eq_none.mpr, Option.map_none']
  intro p hp
  simp only [beq_iff_eq]
  intro hpc
  exact h (by rw [DataFrame.columns, List.mem_map]; exact ⟨p, hp, hpc⟩)

theorem otherCols_subset_columns (df : DataFrame) (col : String) :
    ∀ c ∈ otherCols df col, c ∈ df.columns := by
  intro c hc
  exact List.mem_of_mem_filter hc

/-- When the focus column resolves and every listed column resolves, the
comparison loop succeeds with three slides per column, and every slide
title is one of the three comparison forms. -/
theorem compSlides_ok (df : DataFrame) (col pt : String) (o : Oracle) (s : Series)
    (hs : df.find? col = some s) :
    ∀ (ocs : List String) (idx : Nat), (∀ oc ∈ ocs, oc ∈ df.columns) →
      ∃ slides, compSlides df col pt o ocs idx = .ok slides
        ∧ slides.length = 3 * ocs.length
        ∧ (∀ sl ∈ slides,
            (∃ oc, sl.title = "Comparison Plot: " ++ col ++ " vs " ++ oc)
            ∨ (∃ oc, sl.title = "Comparison Insights: " ++ col ++ " vs " ++ oc)
            ∨ (∃ oc, sl.title = "Detailed Insights: " ++ col ++ " vs " ++ oc)) := by
  intro ocs
  induction ocs with
  | nil =>
    intro idx _
    exact ⟨[], rfl, rfl, by intro sl h; simp at h⟩
  | cons oc rest ih =>
    intro idx hmem
    obtain ⟨t, ht⟩ := find?_of_mem_columns (hmem oc (List.mem_cons_self _ _))
    obtain ⟨tail, htail, hlen, htitles⟩ :=
      ih (idx + 1) (fun c hc => hmem c (List.mem_cons_of_mem _ hc))
    have hrun : compSlides df col pt o (oc :: rest) idx
        = .ok (⟨"Comparison Plot: " ++ col ++ " vs " ++ oc,
                 SlideContent.chart (actualPlotType s.isNumeric t.isNumeric pt)⟩
            :: ⟨"Comparison Insights: " ++ col ++ " vs " ++ oc,
                 SlideContent.bullets (contentPoints df col oc s t)⟩
            :: ⟨"Detailed Insights: " ++ col ++ " vs " ++ oc,
                 SlideContent.bullets (split_into_bullets (o.detailDraw idx) (o.detailText idx) 5 6)⟩
            :: tail) := by
      rw [compSlides, hs, ht, htail]
    refine ⟨_, hrun, ?_, ?_⟩
    · simp only [List.length_cons, hlen]
      ring
    · intro sl hsl
      rcases List.mem_cons.mp hsl with rfl | hsl1
      · exact Or.inl ⟨oc, rfl⟩
      rcases List.mem_cons.mp hsl1 with rfl | hsl2
      · exact Or.inr (Or.inl ⟨oc, rfl⟩)
      rcases List.mem_cons.mp hsl2 with rfl | hsl3
      · exact Or.inr (Or.inr ⟨oc, rfl⟩)
      · exact htitles sl hsl3

/-- The deterministic insights slide of any listed column is in the
comparison loop's output with exactly the `contentPoints` bullets. -/
theorem compSlides_insights_mem (df : DataFrame) (col pt : String) (o : Oracle)
    (s t : Series) (hs : df.find? col = some s) :
    ∀ (ocs : List String) (idx : Nat) (slides : List Slide) (oc : String),
      compSlides df col pt o ocs idx = .ok slides →
      oc ∈ ocs → df.find? oc = some t →
      (⟨"Comparison Insights: " ++ col ++ " vs " ++ oc,
         SlideContent.bullets (contentPoints df col oc s t)⟩ : Slide) ∈ slides := by
  intro ocs
  induction ocs with
  | nil =>
    intro idx slides oc _ hmem
    simp at hmem
  | cons oc0 rest ih =>
    intro idx slides oc hrun hmem ht
    rw [compSlides, hs] at hrun
    rcases h0 : df.find? oc0 with _ | t0
    · rw [h0] at hrun
      exact absurd hrun (by simp)
    rw [h0] at hrun
    rcases htail : compSlides df col pt o rest (idx + 1) with e | tail
    · rw [htail] at hrun
      exact absurd hrun (by simp)
    rw [htail] at hrun
    have hslides := (Except.ok.inj hrun).symm
    rcases List.mem_cons.mp hmem with rfl | hrest
    · have ht0 : t0 = t := by
        rw [h0] at ht
        exact Option.some.inj ht
      subst ht0
      rw [hslides]
      exact List.mem_cons_of_mem _ (List.mem_cons_self _ _)
    · have := ih (idx + 1) tail oc htail hrest ht
      rw [hslides]
      exact List.mem_cons_of_mem _ (List.mem_cons_of_mem _ (List.mem_cons_of_mem _ this))

/- ------------------------------------------------------------------
Length bookkeeping for the title list
------------------------------------------------------------------ -/

theorem baseTitles_length (df : DataFrame) (col : String) (m : Nat) (u : String)
    (o : Oracle) :
    (baseTitles df col m u o).length
      = 3 * (otherCols df col).length
        + (if extraSlidesNeeded df m then 1 else 0)
        + (if directiveFires u then 1 else 0) + 3 := by
  by_cases h1 : extraSlidesNeeded df m <;> by_cases h2 : directiveFires u <;>
    simp [baseTitles, h1, h2] <;> ring

theorem preTitles_length (df : DataFrame) (col : String) (m : Nat) (u : String)
    (o : Oracle) :
    (preTitles df col m u o).length
      = (baseTitles df col m u o).length
        + (if directiveFires2 u then 1 else 0) := by
  by_cases h2 : directiveFires2 u <;> simp [preTitles, h2]

theorem finalTitles_length (df : DataFrame) (col : String) (m : Nat) (u : String)
    (o : Oracle) :
    (finalTitles df col m u o).length
      = (preTitles df col m u o).length + padCount df col m u o := by
  simp [finalTitles]

theorem directiveFires2_imp (u : String) (h : directiveFires2 u = true) :
    directiveFires u = true := by
  rw [directiveFires2, Bool.and_eq_true] at h
  exact h.2

/-- The two summary-directive tests agree: the extra truthiness check of
the slide-adding site is redundant, since an empty prompt cannot contain
the substring "summary". -/
theorem directiveFires2_eq (u : String) : directiveFires2 u = directiveFires u := by
  by_cases hu : u = ""
  · subst hu
    decide
  · simp [directiveFires2, hu]

/- ------------------------------------------------------------------
Structure of a successful run
------------------------------------------------------------------ -/

/-- On a readable non-empty frame with a valid focus column, the run
succeeds; the deck is the cover, the overview group, the introduction,
the interleaved comparison slides, the conditional index and summary
slides, the padding slides, the conclusion and the Thank You slide, and
the reported title list is `finalTitles`. -/
theorem generate_eda_structure (df : DataFrame) (col pt : String) (m : Nat)
    (u : String) (o : Oracle) (hrows : df.nRows ≠ 0) (hcol : col ∈ df.columns) :
    ∃ comps,
      compSlides df col pt o (otherCols df col) 0 = .ok comps
      ∧ comps.length = 3 * (otherCols df col).length
      ∧ (∀ sl ∈ comps,
          (∃ oc, sl.title = "Comparison Plot: " ++ col ++ " vs " ++ oc)
          ∨ (∃ oc, sl.title = "Comparison Insights: " ++ col ++ " vs " ++ oc)
          ∨ (∃ oc, sl.title = "Detailed Insights: " ++ col ++ " vs " ++ oc))
      ∧ generate_eda_report df col pt m u o
          = .ok
            ([⟨coverTitle o, SlideContent.titleOnly⟩]
              ++ overviewSlides (overviewContent (baseTitles df col m u o))
              ++ [⟨"Introduction to Analysis",
                    SlideContent.bullets (split_into_bullets o.introDraw o.introText 5 6)⟩]
              ++ comps
              ++ (if extraSlidesNeeded df m then
                    [⟨"Index of Slides",
                       SlideContent.bullets (split_into_bullets o.indexDraw
                         (joinLines (overviewContent (baseTitles df col m u o))) 5 6)⟩]
                  else [])
              ++ (if directiveFires2 u then
                    [⟨"Summary of Findings",
                       SlideContent.bullets (split_into_bullets o.summaryDraw o.summaryText 5 6)⟩]
                  else [])
              ++ (List.range (padCount df col m u o)).map
                   (fun i => ⟨padTitle i,
                      SlideContent.bullets (split_into_bullets (o.extraDraw i) (o.extraText i) 5 6)⟩)
              ++ [⟨"Conclusion of Analysis",
                    SlideContent.bullets (split_into_bullets o.conclusionDraw o.conclusionText 5 6)⟩,
                  ⟨"Thank You", SlideContent.titleOnly⟩])
            (finalTitles df col m u o) := by
  obtain ⟨s, hs⟩ := find?_of_mem_columns hcol
  obtain ⟨comps, hcomp, hlen, htitles⟩ :=
    compSlides_ok df col pt o s hs (otherCols df col) 0 (otherCols_subset_columns df col)
  refine ⟨comps, hcomp, hlen, htitles, ?_⟩
  unfold generate_eda_report
  rw [if_neg hrows, hcomp]

/-- When the summary directive fires, the overview content of the base
title list is nonempty; in general its length is determined by the
comparison-column count and the two conditional titles. -/
theorem overviewContent_base_length (df : DataFrame) (col : String) (m : Nat)
    (u : String) (o : Oracle) :
    (overviewContent (baseTitles df col m u o)).length
      = 3 * (otherCols df col).length
        + (if extraSlidesNeeded df m then 1 else 0)
        + (if directiveFires u then 1 else 0) := by
  rw [overviewContent_length, baseTitles_length]
  omega

theorem overviewSlides_length_pos {ov : List String} (h : ov ≠ []) :
    1 ≤ (overviewSlides ov).length := by
  rw [overviewSlides, overviewSlidesAux_length]
  have := chunksOf_ne_nil h (by omega : (6 : Nat) ≠ 0)
  rcases hc : chunksOf 6 ov with _ | ⟨c, rest⟩
  · exact absurd hc this
  · simp

/- ------------------------------------------------------------------
Claim C1: the minimum-slide padding
------------------------------------------------------------------ -/

/-- Claim C1: for a readable non-empty frame, a focus column of the
frame and any minimum of at least 3, the padding step computes the
current count as `len(slide_titles) + 1`, appends consecutively numbered
"Additional Analysis" slides exactly until that count first reaches the
minimum (`final + 1 = max (pre + 1) m`), and the produced deck has at
least `m` slides. -/
theorem claim_C1 (df : DataFrame) (col pt u : String) (o : Oracle) (m : Nat)
    (hrows : df.nRows ≠ 0) (hcol : col ∈ df.columns) (hm : 3 ≤ m) :
    ∃ deck, generate_eda_report df col pt m u o = .ok deck (finalTitles df col m u o)
      ∧ padCount df col m u o = m - ((preTitles df col m u o).length + 1)
      ∧ finalTitles df col m u o
          = preTitles df col m u o ++ (List.range (padCount df col m u o)).map padTitle
      ∧ (m ≤ (preTitles df col m u o).length + 1 → padCount df col m u o = 0)
      ∧ ((preTitles df col m u o).length + 1 ≤ m
          → (finalTitles df col m u o).length + 1 = m)
      ∧ (∀ i < padCount df col m u o,
          (⟨padTitle i, SlideContent.bullets
              (split_into_bullets (o.extraDraw i) (o.extraText i) 5 6)⟩ : Slide) ∈ deck)
      ∧ m ≤ deck.length := by
  obtain ⟨comps, hcomp, hclen, _, hgen⟩ :=
    generate_eda_structure df col pt m u o hrows hcol
  refine ⟨_, hgen, rfl, rfl, ?_, ?_, ?_, ?_⟩
  · intro h
    rw [padCount]
    omega
  · intro h
    rw [finalTitles_length, padCount]
    omega
  · intro i hi
    simp only [List.mem_append]
    exact Or.inl (Or.inr (List.mem_map_of_mem _ (List.mem_range.mpr hi)))
  · have hov : (overviewContent (baseTitles df col m u o)).length
        = 3 * (otherCols df col).length
          + (if extraSlidesNeeded df m then 1 else 0)
          + (if directiveFires u then 1 else 0) :=
      overviewContent_base_length df col m u o
    have hpre : (preTitles df col m u o).length
        = 3 * (otherCols df col).length
          + (if extraSlidesNeeded df m then 1 else 0)
          + (if directiveFires u then 1 else 0) + 3
          + (if directiveFires2 u then 1 else 0) := by
      rw [preTitles_length, baseTitles_length]
    have hovpos : directiveFires u = true → 1 ≤ (overviewSlides (overviewContent (baseTitles df col m u o))).length := by
      intro hdir
      apply overviewSlides_length_pos
      intro hnil
      rw [hnil] at hov
      rw [hdir] at hov
      simp only [List.length_nil, if_true] at hov
      omega
    have hpc : padCount df col m u o = m - ((preTitles df col m u o).length + 1) := rfl
    simp only [List.length_append, List.length_cons, List.length_nil, List.length_map,
      List.length_range, hclen, directiveFires2_eq u] at hpre ⊢
    by_cases h1 : extraSlidesNeeded df m = true <;> by_cases h3 : directiveFires u = true
    · have hov1 := hovpos h3
      simp [h1, h3] at hpre ⊢
      all_goals omega
    · simp [h1, h3] at hpre ⊢
      all_goals omega
    · have hov1 := hovpos h3
      simp [h1, h3] at hpre ⊢
      all_goals omega
    · simp [h1, h3] at hpre ⊢
      all_goals omega

/-- Witness for C1: two numeric columns, focus A, minimum 20. -/
theorem claim_C1_witness :
    ∃ deck, generate_eda_report wDfAB "A" "Scatter" 20 wDefaultPrompt wOracle
        = .ok deck (finalTitles wDfAB "A" 20 wDefaultPrompt wOracle)
      ∧ padCount wDfAB "A" 20 wDefaultPrompt wOracle
          = 20 - ((preTitles wDfAB "A" 20 wDefaultPrompt wOracle).length + 1)
      ∧ finalTitles wDfAB "A" 20 wDefaultPrompt wOracle
          = preTitles wDfAB "A" 20 wDefaultPrompt wOracle
            ++ (List.range (padCount wDfAB "A" 20 wDefaultPrompt wOracle)).map padTitle
      ∧ (20 ≤ (preTitles wDfAB "A" 20 wDefaultPrompt wOracle).length + 1
          → padCount wDfAB "A" 20 wDefaultPrompt wOracle = 0)
      ∧ ((preTitles wDfAB "A" 20 wDefaultPrompt wOracle).length + 1 ≤ 20
          → (finalTitles wDfAB "A" 20 wDefaultPrompt wOracle).length + 1 = 20)
      ∧ (∀ i < padCount wDfAB "A" 20 wDefaultPrompt wOracle,
          (⟨padTitle i, SlideContent.bullets
              (split_into_bullets (wOracle.extraDraw i) (wOracle.extraText i) 5 6)⟩ : Slide) ∈ deck)
      ∧ 20 ≤ deck.length :=
  claim_C1 wDfAB "A" "Scatter" wDefaultPrompt wOracle 20 (by decide)
    (by decide) (by decide)

/- ------------------------------------------------------------------
Claim C10: missing focus column
------------------------------------------------------------------ -/

/-- Claim C10: the focus column is never validated; when it is not among
the frame's columns, every column is treated as an "other" column and
the first comparison's `df[col]` access raises an uncaught `KeyError`,
so the run aborts with an exception instead of returning the structured
failure. -/
theorem claim_C10 (df : DataFrame) (col pt u : String) (o : Oracle) (m : Nat)
    (hrows : df.nRows ≠ 0) (hcols : df.cols ≠ []) (hcol : col ∉ df.columns) :
    otherCols df col = df.columns
    ∧ generate_eda_report df col pt m u o = .exn ("KeyError: " ++ col) := by
  have hoc : otherCols df col = df.columns := by
    rw [otherCols]
    apply List.filter_eq_self.mpr
    intro c hc
    simp only [bne_iff_ne, ne_eq]
    intro hcc
    exact hcol (hcc ▸ hc)
  have hnone : df.find? col = none := find?_eq_none_of_not_mem hcol
  have hcolsne : df.columns ≠ [] := by
    rw [DataFrame.columns]
    intro hnil
    exact hcols (List.map_eq_nil_iff.mp hnil)
  refine ⟨hoc, ?_⟩
  rcases hcl : df.columns with _ | ⟨c0, rest⟩
  · exact absurd hcl hcolsne
  have hcompval : compSlides df col pt o (otherCols df col) 0
      = .error ("KeyError: " ++ col) := by
    rw [hoc, hcl, compSlides, hnone]
  unfold generate_eda_report
  rw [if_neg hrows, hcompval]

/-- Witness for C10: focus name Z absent from a two-column frame. -/
theorem claim_C10_witness :
    otherCols wDfAB "Z" = wDfAB.columns
    ∧ generate_eda_report wDfAB "Z" "Scatter" 5 wDefaultPrompt wOracle
        = .exn ("KeyError: " ++ "Z") :=
  claim_C10 wDfAB "Z" "Scatter" wDefaultPrompt wOracle 5 (by decide) (by decide)
    (by decide)

/- ------------------------------------------------------------------
Title inequality helpers
------------------------------------------------------------------ -/

/-- A string built from a literal prefix and three further pieces
differs from any string starting with a different character. -/
theorem append3_ne {p : String} {c : Char} (hp : p.data.head? = some c)
    (x y z : String) {q : String} {d : Char} (hq : q.data.head? = some d)
    (hne : c ≠ d) : p ++ x ++ y ++ z ≠ q := by
  intro he
  have h1 : (p ++ x ++ y ++ z).data.head? = some c :=
    head?_append_left (head?_append_left (head?_append_left hp))
  rw [he, hq] at h1
  exact hne (Option.some.inj h1).symm

/-- The three comparison-slide title families never collide with a fixed
title that starts with a different character. -/
theorem compTitle_ne {q : String} {d : Char} (hq : q.data.head? = some d)
    (col oc : String) :
    ('C' ≠ d → "Comparison Plot: " ++ col ++ " vs " ++ oc ≠ q)
    ∧ ('C' ≠ d → "Comparison Insights: " ++ col ++ " vs " ++ oc ≠ q)
    ∧ ('D' ≠ d → "Detailed Insights: " ++ col ++ " vs " ++ oc ≠ q) :=
  ⟨fun hne => @append3_ne "Comparison Plot: " 'C' rfl col " vs " oc q d hq hne,
   fun hne => @append3_ne "Comparison Insights: " 'C' rfl col " vs " oc q d hq hne,
   fun hne => @append3_ne "Detailed Insights: " 'D' rfl col " vs " oc q d hq hne⟩

/-- Padding titles start with the letter A. -/
theorem padTitle_ne {q : String} {d : Char} (hq : q.data.head? = some d)
    (hne : 'A' ≠ d) (i : Nat) : padTitle i ≠ q :=
  @str_head_ne "Additional Analysis " q 'A' d rfl hq hne (natStr (i + 1))

/- ------------------------------------------------------------------
Cleanliness of strings destined for the newline round-trip
------------------------------------------------------------------ -/

theorem cleanName_spec {s : String} (h : cleanName s = true) :
    s ≠ "" ∧ (∀ c ∈ s.data, c ≠ '\n')
      ∧ (∀ c ∈ s.data.getLast?, c.isWhitespace = false) := by
  rw [cleanName, Bool.and_eq_true, Bool.and_eq_true] at h
  obtain ⟨⟨h1, h2⟩, h3⟩ := h
  refine ⟨of_decide_eq_true h1, ?_, ?_⟩
  · intro c hc
    have := List.all_eq_true.mp h2 c hc
    simpa using this
  · intro c hc
    have hlast : s.data.getLastD ' ' = c := by
      rw [List.getLastD_eq_getLast?]
      rw [Option.mem_def] at hc
      rw [hc]
      rfl
    rw [Bool.not_eq_true'] at h3
    rw [← hlast]
    exact h3

theorem data_ne_nil_of_ne_empty {s : String} (h : s ≠ "") : s.data ≠ [] := by
  intro hd
  exact h (congrArg String.mk hd)

/-- A comparison title `p ++ col ++ mid ++ oc` built from clean pieces is
itself clean: nonempty, newline-free, and its final character is the
final character of `oc`. -/
theorem prefixed_title_clean (p mid col oc : String)
    (hp : ∀ c ∈ p.data, c ≠ '\n') (hmid : ∀ c ∈ mid.data, c ≠ '\n')
    (hcolN : ∀ c ∈ col.data, c ≠ '\n') (hocN : ∀ c ∈ oc.data, c ≠ '\n')
    (hoc0 : oc ≠ "") (hocL : ∀ c ∈ oc.data.getLast?, c.isWhitespace = false)
    (hp0 : p ≠ "") :
    p ++ col ++ mid ++ oc ≠ ""
    ∧ (∀ c ∈ (p ++ col ++ mid ++ oc).data, c ≠ '\n')
    ∧ (∀ c ∈ (p ++ col ++ mid ++ oc).data.getLast?, c.isWhitespace = false) := by
  have hdata : (p ++ col ++ mid ++ oc).data
      = ((p.data ++ col.data) ++ mid.data) ++ oc.data := rfl
  have hpd : p.data ≠ [] := data_ne_nil_of_ne_empty hp0
  refine ⟨?_, ?_, ?_⟩
  · intro he
    have hnil : (p ++ col ++ mid ++ oc).data = [] := by rw [he]
    rw [hdata] at hnil
    apply hpd
    rcases List.append_eq_nil.mp hnil with ⟨h1, h1b⟩
    rcases List.append_eq_nil.mp h1 with ⟨h2, h2b⟩
    exact (List.append_eq_nil.mp h2).1
  · intro c hc
    rw [hdata] at hc
    rcases List.mem_append.mp hc with h1 | h1
    · rcases List.mem_append.mp h1 with h2 | h2
      · rcases List.mem_append.mp h2 with h3 | h3
        · exact hp c h3
        · exact hcolN c h3
      · exact hmid c h2
    · exact hocN c h1
  · intro c hc
    rw [hdata, List.getLast?_append] at hc
    rcases ho : oc.data.getLast? with _ | last
    · exact absurd (List.getLast?_eq_none_iff.mp ho) (data_ne_nil_of_ne_empty hoc0)
    · rw [ho] at hc
      have hcl : last = c := by simpa using hc
      rw [← hcl]
      exact hocL last (by rw [ho]; rfl)

/-- Stripping is a no-op on a string that neither starts nor ends in
whitespace. -/
theorem trimChars_eq_self {cs : List Char}
    (h1 : ∀ c ∈ cs.head?, c.isWhitespace = false)
    (h2 : ∀ c ∈ cs.getLast?, c.isWhitespace = false) :
    trimChars cs = cs := by
  have hdropl : cs.dropWhile Char.isWhitespace = cs := by
    rcases cs with _ | ⟨c, rest⟩
    · rfl
    · rw [List.dropWhile_cons_of_neg]
      rw [h1 c rfl]
      simp
  rw [trimChars, hdropl]
  have hdropr : cs.reverse.dropWhile Char.isWhitespace = cs.reverse := by
    rcases hr : cs.reverse with _ | ⟨c, rest⟩
    · rfl
    · rw [List.dropWhile_cons_of_neg]
      have hc : c ∈ cs.getLast? := by
        rw [← List.head?_reverse, hr]
        rfl
      rw [h2 c hc]
      simp
  rw [hdropr, List.reverse_reverse]

/-- A numbered entry built from a clean title is itself clean: nonempty,
newline-free, starting with a digit, ending with the title's last
character. -/
theorem entry_clean (i : Nat) (t : String) (ht1 : t ≠ "")
    (ht2 : ∀ c ∈ t.data, c ≠ '\n')
    (ht3 : ∀ c ∈ t.data.getLast?, c.isWhitespace = false) :
    natStr (i + 1) ++ ". " ++ t ≠ ""
    ∧ (∀ c ∈ (natStr (i + 1) ++ ". " ++ t).data, c ≠ '\n')
    ∧ (∀ c ∈ (natStr (i + 1) ++ ". " ++ t).data.head?, c.isWhitespace = false)
    ∧ (∀ c ∈ (natStr (i + 1) ++ ". " ++ t).data.getLast?, c.isWhitespace = false) := by
  have hdata : (natStr (i + 1) ++ ". " ++ t).data
      = (natChars (i + 1) ++ [ '.', ' ' ]) ++ t.data := rfl
  have hnchars := natChars_digits (i + 1)
  have hncne := natChars_ne_nil (i + 1)
  refine ⟨?_, ?_, ?_, ?_⟩
  · intro he
    have hnil : (natStr (i + 1) ++ ". " ++ t).data = [] := by rw [he]
    rw [hdata] at hnil
    rcases List.append_eq_nil.mp hnil with ⟨h1, _⟩
    exact hncne (List.append_eq_nil.mp h1).1
  · intro c hc
    rw [hdata] at hc
    rcases List.mem_append.mp hc with h1 | h1
    · rcases List.mem_append.mp h1 with h2 | h2
      · have := hnchars c h2
        intro hcc
        rw [hcc] at this
        exact absurd this (by decide)
      · have hdot : c = '.' ∨ c = ' ' := by simpa using h2
        rcases hdot with rfl | rfl <;> decide
    · exact ht2 c h1
  · intro c hc
    rw [hdata] at hc
    rcases hh : natChars (i + 1) with _ | ⟨c0, rest⟩
    · exact absurd hh hncne
    · have hcc0 : c0 = c := by
        rw [hh] at hc
        simpa using hc
      rw [← hcc0]
      exact not_whitespace_of_isDigit (hnchars c0 (by rw [hh]; exact List.mem_cons_self _ _))
  · intro c hc
    rw [hdata, List.getLast?_append] at hc
    rcases ho : t.data.getLast? with _ | last
    · exact absurd (List.getLast?_eq_none_iff.mp ho) (data_ne_nil_of_ne_empty ht1)
    · rw [ho] at hc
      have hcl : last = c := by simpa using hc
      rw [← hcl]
      exact ht3 last (by rw [ho]; rfl)

/-- Splitting the newline-join of clean lines recovers exactly the
lines: the round-trip the index slide performs on the overview
enumeration is lossless before the sanitizer's length policy applies. -/
theorem pyLines_joinLines {ov : List String} (hne : ov ≠ [])
    (hclean : ∀ t ∈ ov, t ≠ "" ∧ (∀ c ∈ t.data, c ≠ '\n')
        ∧ (∀ c ∈ t.data.head?, c.isWhitespace = false)
        ∧ (∀ c ∈ t.data.getLast?, c.isWhitespace = false)) :
    pyLines (joinLines ov) = ov := by
  have hdata : (joinLines ov).data = List.intercalate ['\n'] (ov.map String.data) := rfl
  rw [pyLines, hdata, splitLines]
  rw [List.splitOn_intercalate (ov.map String.data) '\n' ?hx ?hls]
  case hx =>
    intro l hl
    rw [List.mem_map] at hl
    obtain ⟨t, ht, rfl⟩ := hl
    intro hcmem
    exact (hclean t ht).2.1 '\n' hcmem rfl
  case hls =>
    intro hnil
    exact hne (List.map_eq_nil_iff.mp hnil)
  rw [List.map_map]
  have hmap : ov.map ((fun l => String.mk (trimChars l)) ∘ String.data) = ov := by
    have : ∀ t ∈ ov, ((fun l => String.mk (trimChars l)) ∘ String.data) t = id t := by
      intro t ht
      obtain ⟨ht1, ht2, ht3, ht4⟩ := hclean t ht
      show String.mk (trimChars t.data) = t
      rw [trimChars_eq_self ht3 ht4]
    rw [List.map_congr_left this, List.map_id]
  rw [hmap]
  apply List.filter_eq_self.mpr
  intro t ht
  exact decide_eq_true (hclean t ht).1

/- ------------------------------------------------------------------
The overview slice of the base title list
------------------------------------------------------------------ -/

/-- `slide_titles[2:-1]` of the base title list: exactly the three
per-phase groups of comparison titles followed by the conditional index
and summary placeholders.  The cover, "Introduction to Analysis" and
"Conclusion of Analysis" are excluded by the slicing; padding titles are
excluded because they are appended only after the overview is built. -/
theorem baseTitles_slice (df : DataFrame) (col : String) (m : Nat) (u : String)
    (o : Oracle) :
    ((baseTitles df col m u o).drop 2).dropLast
      = (otherCols df col).map (fun oc => "Comparison Plot: " ++ col ++ " vs " ++ oc)
        ++ (otherCols df col).map (fun oc => "Comparison Insights: " ++ col ++ " vs " ++ oc)
        ++ (otherCols df col).map (fun oc => "Detailed Insights: " ++ col ++ " vs " ++ oc)
        ++ (if extraSlidesNeeded df m then ["Index of Slides"] else [])
        ++ (if directiveFires u then ["Summary of Findings"] else []) := by
  show ((coverTitle o :: "Introduction to Analysis"
      :: (((otherCols df col).map (fun oc => "Comparison Plot: " ++ col ++ " vs " ++ oc)
        ++ (otherCols df col).map (fun oc => "Comparison Insights: " ++ col ++ " vs " ++ oc)
        ++ (otherCols df col).map (fun oc => "Detailed Insights: " ++ col ++ " vs " ++ oc)
        ++ (if extraSlidesNeeded df m then ["Index of Slides"] else [])
        ++ (if directiveFires u then ["Summary of Findings"] else []))
        ++ ["Conclusion of Analysis"])).drop 2).dropLast = _
  rw [List.drop_succ_cons, List.drop_succ_cons, List.drop_zero, List.dropLast_concat]

/-- Every title in the overview slice is clean when the column names
are: nonempty, free of newlines, not ending in whitespace. -/
theorem slice_titles_clean (df : DataFrame) (col : String) (m : Nat) (u : String)
    (o : Oracle) (hcleancols : ∀ c ∈ df.columns, cleanName c = true)
    (hcol : col ∈ df.columns) :
    ∀ t ∈ ((baseTitles df col m u o).drop 2).dropLast,
      t ≠ "" ∧ (∀ c ∈ t.data, c ≠ '\n')
        ∧ (∀ c ∈ t.data.getLast?, c.isWhitespace = false) := by
  have hcolclean := cleanName_spec (hcleancols col hcol)
  intro t ht
  rw [baseTitles_slice] at ht
  simp only [List.mem_append] at ht
  rcases ht with ((((h | h) | h) | h) | h)
  all_goals first
    | (rw [List.mem_map] at h
       obtain ⟨oc, hoc, rfl⟩ := h
       have hocclean := cleanName_spec (hcleancols oc (otherCols_subset_columns df col oc hoc))
       refine prefixed_title_clean _ " vs " col oc ?_ ?_
         hcolclean.2.1 hocclean.2.1 hocclean.1 hocclean.2.2 ?_
       · decide
       · decide
       · decide)
    | (split at h
       · rw [List.mem_singleton] at h
         subst h
         refine ⟨by decide, by decide, ?_⟩
         intro cc hcc
         have hcl : 's' = cc := by simpa using hcc
         rw [← hcl]
         decide
       · simp at h)

/-- The full overview enumeration is clean, entry by entry. -/
theorem overview_entries_clean (df : DataFrame) (col : String) (m : Nat) (u : String)
    (o : Oracle) (hcleancols : ∀ c ∈ df.columns, cleanName c = true)
    (hcol : col ∈ df.columns) :
    ∀ t ∈ overviewContent (baseTitles df col m u o),
      t ≠ "" ∧ (∀ c ∈ t.data, c ≠ '\n')
        ∧ (∀ c ∈ t.data.head?, c.isWhitespace = false)
        ∧ (∀ c ∈ t.data.getLast?, c.isWhitespace = false) := by
  intro t ht
  rw [overviewContent, numberTitles] at ht
  obtain ⟨j, t', ht', rfl⟩ := numberFrom_mem ht
  obtain ⟨h1, h2, h3⟩ := slice_titles_clean df col m u o hcleancols hcol t' ht'
  exact entry_clean j t' h1 h2 h3

/- ------------------------------------------------------------------
Claim C6 (corrected): index versus overview
------------------------------------------------------------------ -/

/-- Claim C6, amended: the index slide and the overview slides draw on
the same numbered title sequence, but the index's rendered content is
the sanitizer applied to that sequence joined by newlines — the
canonical failure list when the sequence has fewer than 5 entries, and a
prefix of 5 to 6 entries of it otherwise — while the overview paginates
the full sequence. -/
theorem claim_C6 (df : DataFrame) (col pt u : String) (o : Oracle) (m : Nat)
    (hrows : df.nRows ≠ 0) (hcol : col ∈ df.columns)
    (hclean : ∀ c ∈ df.columns, cleanName c = true)
    (hr : RandValid o.indexDraw) :
    ∃ deck, generate_eda_report df col pt m u o = .ok deck (finalTitles df col m u o)
      ∧ ((overviewSlides (overviewContent (baseTitles df col m u o))).map bulletsOf).flatten
          = overviewContent (baseTitles df col m u o)
      ∧ (extraSlidesNeeded df m = true →
          (⟨"Index of Slides", SlideContent.bullets
              (split_into_bullets o.indexDraw
                (joinLines (overviewContent (baseTitles df col m u o))) 5 6)⟩ : Slide) ∈ deck)
      ∧ ((overviewContent (baseTitles df col m u o)).length < 5 →
          split_into_bullets o.indexDraw
              (joinLines (overviewContent (baseTitles df col m u o))) 5 6
            = canonical_failure)
      ∧ (5 ≤ (overviewContent (baseTitles df col m u o)).length →
          5 ≤ (split_into_bullets o.indexDraw
                (joinLines (overviewContent (baseTitles df col m u o))) 5 6).length
          ∧ (split_into_bullets o.indexDraw
                (joinLines (overviewContent (baseTitles df col m u o))) 5 6).length
              ≤ Nat.min 6 (overviewContent (baseTitles df col m u o)).length
          ∧ split_into_bullets o.indexDraw
                (joinLines (overviewContent (baseTitles df col m u o))) 5 6
              = (overviewContent (baseTitles df col m u o)).take
                  (split_into_bullets o.indexDraw
                    (joinLines (overviewContent (baseTitles df col m u o))) 5 6).length) := by
  obtain ⟨comps, hcomp, hclen, htitles, hgen⟩ :=
    generate_eda_structure df col pt m u o hrows hcol
  have hcleanov := overview_entries_clean df col m u o hclean hcol
  refine ⟨_, hgen, (overviewSlides_pagination _).1, ?_, ?_, ?_⟩
  · intro hext
    simp only [List.mem_append]
    refine Or.inl (Or.inl (Or.inl (Or.inr ?_)))
    simp [hext]
  · intro hlow
    by_cases hovnil : overviewContent (baseTitles df col m u o) = []
    · rw [hovnil]
      apply split_low
      decide
    · have hpy := pyLines_joinLines hovnil hcleanov
      apply split_low
      rw [hpy]
      exact hlow
  · intro hhigh
    have hovnil : overviewContent (baseTitles df col m u o) ≠ [] := by
      intro hnil
      rw [hnil] at hhigh
      simp at hhigh
    have hpy := pyLines_joinLines hovnil hcleanov
    have := split_high o.indexDraw (joinLines (overviewContent (baseTitles df col m u o)))
      hr (by rw [hpy]; exact hhigh)
    rw [hpy] at this
    exact ⟨this.1, this.2.1, this.2.2.1⟩

/-- Counterexample to C6 as stated: with two columns, minimum 20 and the
default prompt, the index slide renders the canonical failure list while
the overview enumerates the four actual titles — the two are not
identical views. -/
theorem claim_C6_counterexample :
    (deckOf (generate_eda_report wDfAB "A" "Scatter" 20 wDefaultPrompt wOracle)).filter
        (fun sl => sl.title == "Index of Slides")
      = [⟨"Index of Slides", SlideContent.bullets canonical_failure⟩]
    ∧ (deckOf (generate_eda_report wDfAB "A" "Scatter" 20 wDefaultPrompt wOracle)).filter
        (fun sl => sl.title == "Overview of Upcoming Slides")
      = [⟨"Overview of Upcoming Slides", SlideContent.bullets
            ["1. Comparison Plot: A vs B", "2. Comparison Insights: A vs B",
             "3. Detailed Insights: A vs B", "4. Index of Slides"]⟩]
    ∧ canonical_failure
        ≠ ["1. Comparison Plot: A vs B", "2. Comparison Insights: A vs B",
           "3. Detailed Insights: A vs B", "4. Index of Slides"] := by
  decide

/-- Witness for the amended C6 at a concrete two-column frame. -/
theorem claim_C6_witness :
    ∃ deck, generate_eda_report wDfAB "A" "Scatter" 20 wDefaultPrompt wOracle
        = .ok deck (finalTitles wDfAB "A" 20 wDefaultPrompt wOracle)
      ∧ ((overviewSlides (overviewContent (baseTitles wDfAB "A" 20 wDefaultPrompt wOracle))).map bulletsOf).flatten
          = overviewContent (baseTitles wDfAB "A" 20 wDefaultPrompt wOracle)
      ∧ (extraSlidesNeeded wDfAB 20 = true →
          (⟨"Index of Slides", SlideContent.bullets
              (split_into_bullets wOracle.indexDraw
                (joinLines (overviewContent (baseTitles wDfAB "A" 20 wDefaultPrompt wOracle))) 5 6)⟩ : Slide) ∈ deck)
      ∧ ((overviewContent (baseTitles wDfAB "A" 20 wDefaultPrompt wOracle)).length < 5 →
          split_into_bullets wOracle.indexDraw
              (joinLines (overviewContent (baseTitles wDfAB "A" 20 wDefaultPrompt wOracle))) 5 6
            = canonical_failure)
      ∧ (5 ≤ (overviewContent (baseTitles wDfAB "A" 20 wDefaultPrompt wOracle)).length →
          5 ≤ (split_into_bullets wOracle.indexDraw
                (joinLines (overviewContent (baseTitles wDfAB "A" 20 wDefaultPrompt wOracle))) 5 6).length
          ∧ (split_into_bullets wOracle.indexDraw
                (joinLines (overviewContent (baseTitles wDfAB "A" 20 wDefaultPrompt wOracle))) 5 6).length
              ≤ Nat.min 6 (overviewContent (baseTitles wDfAB "A" 20 wDefaultPrompt wOracle)).length
          ∧ split_into_bullets wOracle.indexDraw
                (joinLines (overviewContent (baseTitles wDfAB "A" 20 wDefaultPrompt wOracle))) 5 6
              = (overviewContent (baseTitles wDfAB "A" 20 wDefaultPrompt wOracle)).take
                  (split_into_bullets wOracle.indexDraw
                    (joinLines (overviewContent (baseTitles wDfAB "A" 20 wDefaultPrompt wOracle))) 5 6).length) :=
  claim_C6 wDfAB "A" "Scatter" wDefaultPrompt wOracle 20 (by decide) (by decide)
    (by decide) (fun lo hi hle => ⟨Nat.le_refl lo, hle⟩)

/- ------------------------------------------------------------------
Claim C7 (corrected): the overview slides
------------------------------------------------------------------ -/

/-- Claim C7, amended: the overview slides sit immediately after the
cover and before the Introduction slide; they paginate, at 6 entries per
slide and numbered `i + 1` in plan order, exactly the slice
`slide_titles[2:-1]` of the title list as of planning time — the three
comparison-title groups in per-phase order (all plots, then all
insights, then all details), the conditional index placeholder and the
conditional summary title; the cover, the Introduction, the Conclusion
and the padding titles are not listed. -/
theorem claim_C7 (df : DataFrame) (col pt u : String) (o : Oracle) (m : Nat)
    (hrows : df.nRows ≠ 0) (hcol : col ∈ df.columns) :
    ∃ rest deck, generate_eda_report df col pt m u o = .ok deck (finalTitles df col m u o)
      ∧ deck = ⟨coverTitle o, SlideContent.titleOnly⟩
          :: (overviewSlides (overviewContent (baseTitles df col m u o))
            ++ ⟨"Introduction to Analysis",
                  SlideContent.bullets (split_into_bullets o.introDraw o.introText 5 6)⟩ :: rest)
      ∧ ((overviewSlides (overviewContent (baseTitles df col m u o))).map bulletsOf).flatten
          = overviewContent (baseTitles df col m u o)
      ∧ (∀ sl ∈ overviewSlides (overviewContent (baseTitles df col m u o)),
          (bulletsOf sl).length ≤ 6)
      ∧ overviewContent (baseTitles df col m u o)
          = numberTitles (((baseTitles df col m u o).drop 2).dropLast)
      ∧ ((baseTitles df col m u o).drop 2).dropLast
          = (otherCols df col).map (fun oc => "Comparison Plot: " ++ col ++ " vs " ++ oc)
            ++ (otherCols df col).map (fun oc => "Comparison Insights: " ++ col ++ " vs " ++ oc)
            ++ (otherCols df col).map (fun oc => "Detailed Insights: " ++ col ++ " vs " ++ oc)
            ++ (if extraSlidesNeeded df m then ["Index of Slides"] else [])
            ++ (if directiveFires u then ["Summary of Findings"] else []) := by
  obtain ⟨comps, hcomp, hclen, htitles, hgen⟩ :=
    generate_eda_structure df col pt m u o hrows hcol
  refine ⟨comps
      ++ (if extraSlidesNeeded df m then
            [⟨"Index of Slides", SlideContent.bullets (split_into_bullets o.indexDraw
              (joinLines (overviewContent (baseTitles df col m u o))) 5 6)⟩]
          else [])
      ++ (if directiveFires2 u then
            [⟨"Summary of Findings",
               SlideContent.bullets (split_into_bullets o.summaryDraw o.summaryText 5 6)⟩]
          else [])
      ++ (List.range (padCount df col m u o)).map
           (fun i => ⟨padTitle i,
              SlideContent.bullets (split_into_bullets (o.extraDraw i) (o.extraText i) 5 6)⟩)
      ++ [⟨"Conclusion of Analysis",
            SlideContent.bullets (split_into_bullets o.conclusionDraw o.conclusionText 5 6)⟩,
          ⟨"Thank You", SlideContent.titleOnly⟩],
    _, hgen, ?_, (overviewSlides_pagination _).1,
    (overviewSlides_pagination _).2, rfl, baseTitles_slice df col m u o⟩
  simp [List.append_assoc]

/-- Counterexample to C7 as stated: with columns A, B, C and focus A,
the overview lists the six comparison titles grouped by phase — not
interleaved per column — omits "Introduction to Analysis" and
"Conclusion of Analysis", and the slide following the overview is the
Introduction slide, not a comparison slide. -/
theorem claim_C7_counterexample :
    (deckOf (generate_eda_report wDfABC "A" "Scatter" 3 wDefaultPrompt wOracle)).filter
        (fun sl => sl.title == "Overview of Upcoming Slides")
      = [⟨"Overview of Upcoming Slides", SlideContent.bullets
            ["1. Comparison Plot: A vs B", "2. Comparison Plot: A vs C",
             "3. Comparison Insights: A vs B", "4. Comparison Insights: A vs C",
             "5. Detailed Insights: A vs B", "6. Detailed Insights: A vs C"]⟩]
    ∧ "1. Introduction to Analysis"
        ∉ ["1. Comparison Plot: A vs B", "2. Comparison Plot: A vs C",
           "3. Comparison Insights: A vs B", "4. Comparison Insights: A vs C",
           "5. Detailed Insights: A vs B", "6. Detailed Insights: A vs C"]
    ∧ ["1. Comparison Plot: A vs B", "2. Comparison Plot: A vs C",
       "3. Comparison Insights: A vs B", "4. Comparison Insights: A vs C",
       "5. Detailed Insights: A vs B", "6. Detailed Insights: A vs C"]
        ≠ ["1. Introduction to Analysis", "2. Comparison Plot: A vs B",
           "3. Comparison Insights: A vs B", "4. Detailed Insights: A vs B",
           "5. Comparison Plot: A vs C", "6. Comparison Insights: A vs C",
           "7. Detailed Insights: A vs C", "8. Conclusion of Analysis"]
    ∧ ((deckOf (generate_eda_report wDfABC "A" "Scatter" 3 wDefaultPrompt wOracle)).drop 2).head?
        = some ⟨"Introduction to Analysis", SlideContent.bullets canonical_failure⟩ := by
  decide

/-- Witness for the amended C7 at a concrete three-column frame. -/
theorem claim_C7_witness :
    ∃ rest deck, generate_eda_report wDfABC "A" "Scatter" 3 wDefaultPrompt wOracle
        = .ok deck (finalTitles wDfABC "A" 3 wDefaultPrompt wOracle)
      ∧ deck = ⟨coverTitle wOracle, SlideContent.titleOnly⟩
          :: (overviewSlides (overviewContent (baseTitles wDfABC "A" 3 wDefaultPrompt wOracle))
            ++ ⟨"Introduction to Analysis",
                  SlideContent.bullets (split_into_bullets wOracle.introDraw wOracle.introText 5 6)⟩ :: rest)
      ∧ ((overviewSlides (overviewContent (baseTitles wDfABC "A" 3 wDefaultPrompt wOracle))).map bulletsOf).flatten
          = overviewContent (baseTitles wDfABC "A" 3 wDefaultPrompt wOracle)
      ∧ (∀ sl ∈ overviewSlides (overviewContent (baseTitles wDfABC "A" 3 wDefaultPrompt wOracle)),
          (bulletsOf sl).length ≤ 6)
      ∧ overviewContent (baseTitles wDfABC "A" 3 wDefaultPrompt wOracle)
          = numberTitles (((baseTitles wDfABC "A" 3 wDefaultPrompt wOracle).drop 2).dropLast)
      ∧ ((baseTitles wDfABC "A" 3 wDefaultPrompt wOracle).drop 2).dropLast
          = (otherCols wDfABC "A").map (fun oc => "Comparison Plot: " ++ "A" ++ " vs " ++ oc)
            ++ (otherCols wDfABC "A").map (fun oc => "Comparison Insights: " ++ "A" ++ " vs " ++ oc)
            ++ (otherCols wDfABC "A").map (fun oc => "Detailed Insights: " ++ "A" ++ " vs " ++ oc)
            ++ (if extraSlidesNeeded wDfABC 3 then ["Index of Slides"] else [])
            ++ (if directiveFires wDefaultPrompt then ["Summary of Findings"] else []) :=
  claim_C7 wDfABC "A" "Scatter" wDefaultPrompt wOracle 3 (by decide) (by decide)

/- ------------------------------------------------------------------
Claim C8 (corrected): the index-slide condition
------------------------------------------------------------------ -/

/-- Claim C8, amended: the "Index of Slides" slide (and its title
placeholder) is added exactly when `minSlides > 2 * numColumns` — the
source compares against twice the total column count, not twice the
count minus one. -/
theorem claim_C8 (df : DataFrame) (col pt u : String) (o : Oracle) (m : Nat)
    (hrows : df.nRows ≠ 0) (hcol : col ∈ df.columns)
    (hcover : coverTitle o ≠ "Index of Slides") :
    ∃ deck, generate_eda_report df col pt m u o = .ok deck (finalTitles df col m u o)
      ∧ deck.countP (fun sl => sl.title == "Index of Slides")
          = (if 2 * df.columns.length < m then 1 else 0)
      ∧ ("Index of Slides" ∈ baseTitles df col m u o ↔ 2 * df.columns.length < m) := by
  obtain ⟨comps, hcomp, hclen, htitles, hgen⟩ :=
    generate_eda_structure df col pt m u o hrows hcol
  have hq : ("Index of Slides" : String).data.head? = some 'I' := rfl
  refine ⟨_, hgen, ?_, ?_⟩
  · have hov0 : (overviewSlides (overviewContent (baseTitles df col m u o))).countP
        (fun sl => sl.title == "Index of Slides") = 0 := by
      rw [List.countP_eq_zero]
      intro sl hsl
      rcases overviewSlidesAux_titles true _ sl hsl with h | h <;> simp [h]
    have hcomps0 : comps.countP (fun sl => sl.title == "Index of Slides") = 0 := by
      rw [List.countP_eq_zero]
      intro sl hsl
      rcases htitles sl hsl with ⟨oc, hti⟩ | ⟨oc, hti⟩ | ⟨oc, hti⟩
      · simp only [hti, beq_iff_eq]
        exact (compTitle_ne hq col oc).1 (by decide)
      · simp only [hti, beq_iff_eq]
        exact (compTitle_ne hq col oc).2.1 (by decide)
      · simp only [hti, beq_iff_eq]
        exact (compTitle_ne hq col oc).2.2 (by decide)
    have hpad0 : ((List.range (padCount df col m u o)).map
        (fun i => (⟨padTitle i, SlideContent.bullets
          (split_into_bullets (o.extraDraw i) (o.extraText i) 5 6)⟩ : Slide))).countP
          (fun sl => sl.title == "Index of Slides") = 0 := by
      rw [List.countP_eq_zero]
      intro sl hsl
      rw [List.mem_map] at hsl
      obtain ⟨i, _, rfl⟩ := hsl
      simp only [beq_iff_eq]
      exact padTitle_ne hq (by decide) i
    have hidx : ((if extraSlidesNeeded df m then
        [(⟨"Index of Slides", SlideContent.bullets (split_into_bullets o.indexDraw
            (joinLines (overviewContent (baseTitles df col m u o))) 5 6)⟩ : Slide)]
        else []) : List Slide).countP (fun sl => sl.title == "Index of Slides")
        = (if 2 * df.columns.length < m then 1 else 0) := by
      by_cases hb : extraSlidesNeeded df m = true
      · have hb2 : 2 * df.columns.length < m := by
          simpa [extraSlidesNeeded] using hb
        simp [hb, hb2]
      · have hb2 : ¬(2 * df.columns.length < m) := by
          simpa [extraSlidesNeeded] using hb
        simp [hb, hb2]
    have hsum0 : ((if directiveFires2 u then
        [(⟨"Summary of Findings", SlideContent.bullets
            (split_into_bullets o.summaryDraw o.summaryText 5 6)⟩ : Slide)]
        else []) : List Slide).countP (fun sl => sl.title == "Index of Slides") = 0 := by
      by_cases hb : directiveFires2 u = true <;> simp [hb]
    have hcov0 : ([(⟨coverTitle o, SlideContent.titleOnly⟩ : Slide)] : List Slide).countP
        (fun sl => sl.title == "Index of Slides") = 0 := by
      simp [List.countP_cons, beq_iff_eq, hcover]
    simp only [List.countP_append]
    rw [hov0, hcomps0, hpad0, hidx, hsum0, hcov0]
    simp [List.countP_cons]
  · constructor
    · intro hmem
      by_contra hnot
      have hb : extraSlidesNeeded df m = false := by
        simp [extraSlidesNeeded]
        omega
      rw [baseTitles, hb] at hmem
      simp only [List.mem_append, if_false] at hmem
      rcases hmem with ((((((h | h) | h) | h) | h) | h) | h)
      · rcases List.mem_cons.mp h with h1 | h1
        · exact hcover h1.symm
        · rw [List.mem_singleton] at h1
          exact absurd h1.symm (by decide)
      · rw [List.mem_map] at h
        obtain ⟨oc, _, hoc⟩ := h
        exact (compTitle_ne hq col oc).1 (by decide) hoc
      · rw [List.mem_map] at h
        obtain ⟨oc, _, hoc⟩ := h
        exact (compTitle_ne hq col oc).2.1 (by decide) hoc
      · rw [List.mem_map] at h
        obtain ⟨oc, _, hoc⟩ := h
        exact (compTitle_ne hq col oc).2.2 (by decide) hoc
      · simp at h
      · revert h
        split
        · rw [List.mem_singleton]
          intro h
          exact absurd h.symm (by decide)
        · simp
      · rw [List.mem_singleton] at h
        exact absurd h.symm (by decide)
    · intro hlt
      have hb : extraSlidesNeeded df m = true := by
        simp [extraSlidesNeeded]
        omega
      rw [baseTitles, hb]
      simp only [List.mem_append, if_true]
      exact Or.inl (Or.inl (Or.inr (List.mem_singleton.mpr rfl)))

/-- Counterexample to C8 as stated: three columns, minimum 5.  The claim
predicts an index slide since `5 > 2 * (3 - 1)`, yet the source compares
against `2 * 3` and produces none. -/
theorem claim_C8_counterexample :
    2 * (wDfABC.columns.length - 1) < 5
    ∧ (deckOf (generate_eda_report wDfABC "A" "Scatter" 5 wDefaultPrompt wOracle)).countP
        (fun sl => sl.title == "Index of Slides") = 0
    ∧ "Index of Slides" ∉ finalTitles wDfABC "A" 5 wDefaultPrompt wOracle := by
  decide

/-- Witness for the amended C8 at a two-column frame with minimum 20. -/
theorem claim_C8_witness :
    ∃ deck, generate_eda_report wDfAB "A" "Scatter" 20 wDefaultPrompt wOracle
        = .ok deck (finalTitles wDfAB "A" 20 wDefaultPrompt wOracle)
      ∧ deck.countP (fun sl => sl.title == "Index of Slides")
          = (if 2 * wDfAB.columns.length < 20 then 1 else 0)
      ∧ ("Index of Slides" ∈ baseTitles wDfAB "A" 20 wDefaultPrompt wOracle
          ↔ 2 * wDfAB.columns.length < 20) :=
  claim_C8 wDfAB "A" "Scatter" wDefaultPrompt wOracle 20 (by decide) (by decide)
    (by decide)

/- ------------------------------------------------------------------
Claim C9: the summary title is tracked twice
------------------------------------------------------------------ -/

/-- Claim C9: when the summary directive fires, exactly one "Summary of
Findings" slide is in the deck, but its title is appended to the
tracking list twice, so the minimum-slide check's count
`len(slide_titles) + 1` exceeds by one the number of non-overview slides
plus the pending Thank You: the deck's size is `len(slide_titles)` plus
the overview-slide count, one short of what the tracking intends. -/
theorem claim_C9 (df : DataFrame) (col pt u : String) (o : Oracle) (m : Nat)
    (hrows : df.nRows ≠ 0) (hcol : col ∈ df.columns)
    (hdir : directiveFires u = true)
    (hcover : coverTitle o ≠ "Summary of Findings") :
    ∃ deck, generate_eda_report df col pt m u o = .ok deck (finalTitles df col m u o)
      ∧ (finalTitles df col m u o).count "Summary of Findings" = 2
      ∧ deck.countP (fun sl => sl.title == "Summary of Findings") = 1
      ∧ deck.length = (finalTitles df col m u o).length
          + (overviewSlides (overviewContent (baseTitles df col m u o))).length := by
  obtain ⟨comps, hcomp, hclen, htitles, hgen⟩ :=
    generate_eda_structure df col pt m u o hrows hcol
  have hq : ("Summary of Findings" : String).data.head? = some 'S' := rfl
  have hdir2 : directiveFires2 u = true := by rw [directiveFires2_eq]; exact hdir
  refine ⟨_, hgen, ?_, ?_, ?_⟩
  · have hbase1 : (baseTitles df col m u o).count "Summary of Findings" = 1 := by
      rw [baseTitles, hdir]
      simp only [List.count_append, if_true]
      have hm1 : ∀ oc : String,
          ¬("Comparison Plot: " ++ col ++ " vs " ++ oc = "Summary of Findings") :=
        fun oc => (compTitle_ne hq col oc).1 (by decide)
      have hm2 : ∀ oc : String,
          ¬("Comparison Insights: " ++ col ++ " vs " ++ oc = "Summary of Findings") :=
        fun oc => (compTitle_ne hq col oc).2.1 (by decide)
      have hm3 : ∀ oc : String,
          ¬("Detailed Insights: " ++ col ++ " vs " ++ oc = "Summary of Findings") :=
        fun oc => (compTitle_ne hq col oc).2.2 (by decide)
      have hc1 : ([coverTitle o, "Introduction to Analysis"] : List String).count
          "Summary of Findings" = 0 := by
        rw [List.count_eq_zero]
        intro hmem
        rcases List.mem_cons.mp hmem with h1 | h1
        · exact hcover h1.symm
        · rw [List.mem_singleton] at h1
          exact absurd h1.symm (by decide)
      have hmap0 : ∀ (f : String → String), (∀ oc, ¬(f oc = "Summary of Findings")) →
          ∀ ocs : List String, (ocs.map f).count "Summary of Findings" = 0 := by
        intro f hf ocs
        rw [List.count_eq_zero]
        intro hmem
        rw [List.mem_map] at hmem
        obtain ⟨oc, _, hoc⟩ := hmem
        exact hf oc hoc
      have hidx0 : ((if extraSlidesNeeded df m then ["Index of Slides"] else []) :
          List String).count "Summary of Findings" = 0 := by
        by_cases hb : extraSlidesNeeded df m = true <;> simp [hb]
      rw [hc1, hmap0 _ hm1, hmap0 _ hm2, hmap0 _ hm3, hidx0]
      simp
    rw [finalTitles, preTitles, hdir2]
    simp only [List.count_append, if_true]
    have hpads0 : ((List.range (padCount df col m u o)).map padTitle).count
        "Summary of Findings" = 0 := by
      rw [List.count_eq_zero]
      intro hmem
      rw [List.mem_map] at hmem
      obtain ⟨i, _, hi⟩ := hmem
      exact padTitle_ne hq (by decide) i hi
    rw [hbase1, hpads0]
    simp
  · have hov0 : (overviewSlides (overviewContent (baseTitles df col m u o))).countP
        (fun sl => sl.title == "Summary of Findings") = 0 := by
      rw [List.countP_eq_zero]
      intro sl hsl
      rcases overviewSlidesAux_titles true _ sl hsl with h | h <;> simp [h]
    have hcomps0 : comps.countP (fun sl => sl.title == "Summary of Findings") = 0 := by
      rw [List.countP_eq_zero]
      intro sl hsl
      rcases htitles sl hsl with ⟨oc, hti⟩ | ⟨oc, hti⟩ | ⟨oc, hti⟩
      · simp only [hti, beq_iff_eq]
        exact (compTitle_ne hq col oc).1 (by decide)
      · simp only [hti, beq_iff_eq]
        exact (compTitle_ne hq col oc).2.1 (by decide)
      · simp only [hti, beq_iff_eq]
        exact (compTitle_ne hq col oc).2.2 (by decide)
    have hpad0 : ((List.range (padCount df col m u o)).map
        (fun i => (⟨padTitle i, SlideContent.bullets
          (split_into_bullets (o.extraDraw i) (o.extraText i) 5 6)⟩ : Slide))).countP
          (fun sl => sl.title == "Summary of Findings") = 0 := by
      rw [List.countP_eq_zero]
      intro sl hsl
      rw [List.mem_map] at hsl
      obtain ⟨i, _, rfl⟩ := hsl
      simp only [beq_iff_eq]
      exact padTitle_ne hq (by decide) i
    have hidx0 : ((if extraSlidesNeeded df m then
        [(⟨"Index of Slides", SlideContent.bullets (split_into_bullets o.indexDraw
            (joinLines (overviewContent (baseTitles df col m u o))) 5 6)⟩ : Slide)]
        else []) : List Slide).countP (fun sl => sl.title == "Summary of Findings")
        = 0 := by
      by_cases hb : extraSlidesNeeded df m = true <;> simp [hb]
    have hsum1 : ((if directiveFires2 u then
        [(⟨"Summary of Findings", SlideContent.bullets
            (split_into_bullets o.summaryDraw o.summaryText 5 6)⟩ : Slide)]
        else []) : List Slide).countP (fun sl => sl.title == "Summary of Findings")
        = 1 := by
      simp [hdir2]
    have hcov0 : ([(⟨coverTitle o, SlideContent.titleOnly⟩ : Slide)] : List Slide).countP
        (fun sl => sl.title == "Summary of Findings") = 0 := by
      simp [List.countP_cons, beq_iff_eq, hcover]
    simp only [List.countP_append]
    rw [hov0, hcomps0, hpad0, hidx0, hsum1, hcov0]
    simp [List.countP_cons]
  · have hpre : (preTitles df col m u o).length
        = 3 * (otherCols df col).length
          + (if extraSlidesNeeded df m then 1 else 0)
          + (if directiveFires u then 1 else 0) + 3
          + (if directiveFires2 u then 1 else 0) := by
      rw [preTitles_length, baseTitles_length]
    rw [finalTitles_length]
    simp only [List.length_append, List.length_cons, List.length_nil, List.length_map,
      List.length_range, hclen]
    rw [hdir] at hpre
    by_cases h1 : extraSlidesNeeded df m = true
    · simp [h1, hdir2] at hpre ⊢
      omega
    · simp [h1, hdir2] at hpre ⊢
      omega

/-- Witness for C9: summary prompt on a two-column frame. -/
theorem claim_C9_witness :
    ∃ deck, generate_eda_report wDfAB "A" "Scatter" 5 "please add a summary slide" wOracle
        = .ok deck (finalTitles wDfAB "A" 5 "please add a summary slide" wOracle)
      ∧ (finalTitles wDfAB "A" 5 "please add a summary slide" wOracle).count
          "Summary of Findings" = 2
      ∧ deck.countP (fun sl => sl.title == "Summary of Findings") = 1
      ∧ deck.length = (finalTitles wDfAB "A" 5 "please add a summary slide" wOracle).length
          + (overviewSlides (overviewContent
              (baseTitles wDfAB "A" 5 "please add a summary slide" wOracle))).length :=
  claim_C9 wDfAB "A" "Scatter" "please add a summary slide" wOracle 5 (by decide)
    (by decide) (by decide) (by decide)

/- ------------------------------------------------------------------
Claim C5 (corrected): the deterministic stat bullets
------------------------------------------------------------------ -/

/-- Claim C5, amended: the "Comparison Insights" content is always the
six deterministic stat bullets, placed in the deck verbatim (never
passed through the randomized 5-to-6 trimming), in the required order
(row count; correlation-or-type-note; other-column mean-or-unique-count;
other-column min-or-mode; other-column max-or-diversity-flag with "High"
exactly when the unique count exceeds 5; focus-column
mean-or-top-category).  The float statistics — correlation, means,
minimum, maximum — are rendered by the two-decimal formatter, which
always emits exactly two digits after the decimal point; the row count
and unique counts are rendered as plain integers. -/
theorem claim_C5 (df : DataFrame) (col pt u : String) (o : Oracle) (m : Nat)
    (oc : String) (s t : Series)
    (hrows : df.nRows ≠ 0) (hcol : col ∈ df.columns)
    (hs : df.find? col = some s) (hoc : oc ∈ otherCols df col)
    (ht : df.find? oc = some t) :
    ∃ deck, generate_eda_report df col pt m u o = .ok deck (finalTitles df col m u o)
      ∧ (⟨"Comparison Insights: " ++ col ++ " vs " ++ oc,
           SlideContent.bullets (contentPoints df col oc s t)⟩ : Slide) ∈ deck
      ∧ (contentPoints df col oc s t).length = 6
      ∧ (contentPoints df col oc s t).head?
          = some ("Rows analyzed: " ++ natStr df.nRows ++ ". Total entries in CSV.")
      ∧ (s.isNumeric = true → t.isNumeric = true →
          (contentPoints df col oc s t).get? 1
            = some ("Correlation: " ++ fmt2 (df.corrOf col oc)
                ++ ". Shows " ++ col ++ " vs " ++ oc ++ " link."))
      ∧ (t.isNumeric = true →
          (contentPoints df col oc s t).get? 2
              = some (oc ++ " mean: " ++ fmt2 t.mean ++ ". Average from CSV data.")
          ∧ (contentPoints df col oc s t).get? 3
              = some (oc ++ " min: " ++ fmt2 t.minVal ++ ". Minimum value in CSV.")
          ∧ (contentPoints df col oc s t).get? 4
              = some (oc ++ " max: " ++ fmt2 t.maxVal ++ ". Maximum value in CSV."))
      ∧ (t.isNumeric = false →
          (contentPoints df col oc s t).get? 2
              = some (oc ++ " unique: " ++ natStr t.nunique ++ ". Distinct values counted.")
          ∧ (contentPoints df col oc s t).get? 4
              = some (oc ++ " diversity: " ++ (if 5 < t.nunique then "High" else "Low")
                  ++ ". Variation in data."))
      ∧ (s.isNumeric = true →
          (contentPoints df col oc s t).get? 5
            = some (col ++ " stat: " ++ fmt2 s.mean ++ ". Numeric average from CSV."))
      ∧ (∀ x : ℚ, isTwoDec (fmt2 x) = true) := by
  obtain ⟨comps, hcomp, hclen, htitles, hgen⟩ :=
    generate_eda_structure df col pt m u o hrows hcol
  refine ⟨_, hgen, ?_, rfl, rfl, ?_, ?_, ?_, ?_, isTwoDec_fmt2⟩
  · have hmem := compSlides_insights_mem df col pt o s t hs (otherCols df col) 0
      comps oc hcomp hoc ht
    simp only [List.mem_append]
    exact Or.inl (Or.inl (Or.inl (Or.inl (Or.inr hmem))))
  · intro hs1 ht1
    simp [contentPoints, hs1, ht1]
  · intro ht1
    refine ⟨?_, ?_, ?_⟩ <;> simp [contentPoints, ht1]
  · intro ht1
    refine ⟨?_, ?_⟩ <;> simp [contentPoints, ht1]
  · intro hs1
    simp [contentPoints, hs1]

/-- Counterexample to C5 as stated: at 150 rows, the first bullet reads
"Rows analyzed: 150. Total entries in CSV."; its only numeric figure is
the integer 150, which is not written with two decimal places. -/
theorem claim_C5_counterexample :
    (contentPoints wDfAB "A" "B" wNum wNum).head?
      = some "Rows analyzed: 150. Total entries in CSV."
    ∧ numTokens "Rows analyzed: 150. Total entries in CSV.".data = ["150"]
    ∧ isTwoDec "150" = false := by
  decide

/-- Witness for the amended C5 on the numeric pair A, B. -/
theorem claim_C5_witness :
    ∃ deck, generate_eda_report wDfAB "A" "Scatter" 5 wDefaultPrompt wOracle
        = .ok deck (finalTitles wDfAB "A" 5 wDefaultPrompt wOracle)
      ∧ (⟨"Comparison Insights: " ++ "A" ++ " vs " ++ "B",
           SlideContent.bullets (contentPoints wDfAB "A" "B" wNum wNum)⟩ : Slide) ∈ deck
      ∧ (contentPoints wDfAB "A" "B" wNum wNum).length = 6
      ∧ (contentPoints wDfAB "A" "B" wNum wNum).head?
          = some ("Rows analyzed: " ++ natStr wDfAB.nRows ++ ". Total entries in CSV.")
      ∧ (wNum.isNumeric = true → wNum.isNumeric = true →
          (contentPoints wDfAB "A" "B" wNum wNum).get? 1
            = some ("Correlation: " ++ fmt2 (wDfAB.corrOf "A" "B")
                ++ ". Shows " ++ "A" ++ " vs " ++ "B" ++ " link."))
      ∧ (wNum.isNumeric = true →
          (contentPoints wDfAB "A" "B" wNum wNum).get? 2
              = some ("B" ++ " mean: " ++ fmt2 wNum.mean ++ ". Average from CSV data.")
          ∧ (contentPoints wDfAB "A" "B" wNum wNum).get? 3
              = some ("B" ++ " min: " ++ fmt2 wNum.minVal ++ ". Minimum value in CSV.")
          ∧ (contentPoints wDfAB "A" "B" wNum wNum).get? 4
              = some ("B" ++ " max: " ++ fmt2 wNum.maxVal ++ ". Maximum value in CSV."))
      ∧ (wNum.isNumeric = false →
          (contentPoints wDfAB "A" "B" wNum wNum).get? 2
              = some ("B" ++ " unique: " ++ natStr wNum.nunique ++ ". Distinct values counted.")
          ∧ (contentPoints wDfAB "A" "B" wNum wNum).get? 4
              = some ("B" ++ " diversity: " ++ (if 5 < wNum.nunique then "High" else "Low")
                  ++ ". Variation in data."))
      ∧ (wNum.isNumeric = true →
          (contentPoints wDfAB "A" "B" wNum wNum).get? 5
            = some ("A" ++ " stat: " ++ fmt2 wNum.mean ++ ". Numeric average from CSV."))
      ∧ (∀ x : ℚ, isTwoDec (fmt2 x) = true) :=
  claim_C5 wDfAB "A" "Scatter" wDefaultPrompt wOracle 5 "B" wNum wNum (by decide)
    (by decide) (by decide) (by decide) (by decide)

end PPT
